import Mathlib

/- Verification of the signup-sequencer core sources: the MiMC sponge hash of
mimc_hash.rs (keccak-derived round constants and the 220-round feistel
permutation), the versioned incremental Merkle tree engine of identity_tree.rs
(tree versions, diff logs, reconciliation, the canonical builder, confirmation
status parsing), and the insertion flow of app.rs. Rust structures are
embedded as Lean structures; shared mutable version handles are embedded by
passing the child version explicitly; fallible external calls are embedded by
their outcomes. -/

set_option maxRecDepth 10000


namespace MimcHash

def M64 : Nat := 18446744073709551615

def rotl (x n : Nat) : Nat := ((x <<< n) ||| (x >>> (64 - n))) &&& M64

def KECCAK_RC : List Nat :=
  [0x0000000000000001, 0x0000000000008082, 0x800000000000808a, 0x8000000080008000,
   0x000000000000808b, 0x0000000080000001, 0x8000000080008081, 0x8000000000008009,
   0x000000000000008a, 0x0000000000000088, 0x0000000080008009, 0x000000008000000a,
   0x000000008000808b, 0x800000000000008b, 0x8000000000008089, 0x8000000000008003,
   0x8000000000008002, 0x8000000000000080, 0x000000000000800a, 0x800000008000000a,
   0x8000000080008081, 0x8000000000008080, 0x0000000080000001, 0x8000000080008008]

/-- chi step then iota on lane (0,0); arguments are the post-rho-pi lanes in
index order x + 5*y. -/
def keccakChi (rc b00 b10 b20 b30 b40 b01 b11 b21 b31 b41
    b02 b12 b22 b32 b42 b03 b13 b23 b33 b43 b04 b14 b24 b34 b44 : Nat) : List Nat :=
  [(b00 ^^^ ((b10 ^^^ M64) &&& b20)) ^^^ rc,
   b10 ^^^ ((b20 ^^^ M64) &&& b30),
   b20 ^^^ ((b30 ^^^ M64) &&& b40),
   b30 ^^^ ((b40 ^^^ M64) &&& b00),
   b40 ^^^ ((b00 ^^^ M64) &&& b10),
   b01 ^^^ ((b11 ^^^ M64) &&& b21),
   b11 ^^^ ((b21 ^^^ M64) &&& b31),
   b21 ^^^ ((b31 ^^^ M64) &&& b41),
   b31 ^^^ ((b41 ^^^ M64) &&& b01),
   b41 ^^^ ((b01 ^^^ M64) &&& b11),
   b02 ^^^ ((b12 ^^^ M64) &&& b22),
   b12 ^^^ ((b22 ^^^ M64) &&& b32),
   b22 ^^^ ((b32 ^^^ M64) &&& b42),
   b32 ^^^ ((b42 ^^^ M64) &&& b02),
   b42 ^^^ ((b02 ^^^ M64) &&& b12),
   b03 ^^^ ((b13 ^^^ M64) &&& b23),
   b13 ^^^ ((b23 ^^^ M64) &&& b33),
   b23 ^^^ ((b33 ^^^ M64) &&& b43),
   b33 ^^^ ((b43 ^^^ M64) &&& b03),
   b43 ^^^ ((b03 ^^^ M64) &&& b13),
   b04 ^^^ ((b14 ^^^ M64) &&& b24),
   b14 ^^^ ((b24 ^^^ M64) &&& b34),
   b24 ^^^ ((b34 ^^^ M64) &&& b44),
   b34 ^^^ ((b44 ^^^ M64) &&& b04),
   b44 ^^^ ((b04 ^^^ M64) &&& b14)]

/-- rho (lane rotations) and pi (lane permutation), applied to the
post-theta lanes. -/
def keccakRhoPi (rc e00 e10 e20 e30 e40 e01 e11 e21 e31 e41
    e02 e12 e22 e32 e42 e03 e13 e23 e33 e43 e04 e14 e24 e34 e44 : Nat) : List Nat :=
  keccakChi rc
    e00 (rotl e11 44) (rotl e22 43) (rotl e33 21) (rotl e44 14)
    (rotl e30 28) (rotl e41 20) (rotl e02 3) (rotl e13 45) (rotl e24 61)
    (rotl e10 1) (rotl e21 6) (rotl e32 25) (rotl e43 8) (rotl e04 18)
    (rotl e40 27) (rotl e01 36) (rotl e12 10) (rotl e23 15) (rotl e34 56)
    (rotl e20 62) (rotl e31 55) (rotl e42 39) (rotl e03 41) (rotl e14 2)

/-- second half of theta: xor each lane with the column parity mix d. -/
def keccakThetaD (rc a00 a10 a20 a30 a40 a01 a11 a21 a31 a41
    a02 a12 a22 a32 a42 a03 a13 a23 a33 a43 a04 a14 a24 a34 a44
    d0 d1 d2 d3 d4 : Nat) : List Nat :=
  keccakRhoPi rc
    (a00 ^^^ d0) (a10 ^^^ d1) (a20 ^^^ d2) (a30 ^^^ d3) (a40 ^^^ d4)
    (a01 ^^^ d0) (a11 ^^^ d1) (a21 ^^^ d2) (a31 ^^^ d3) (a41 ^^^ d4)
    (a02 ^^^ d0) (a12 ^^^ d1) (a22 ^^^ d2) (a32 ^^^ d3) (a42 ^^^ d4)
    (a03 ^^^ d0) (a13 ^^^ d1) (a23 ^^^ d2) (a33 ^^^ d3) (a43 ^^^ d4)
    (a04 ^^^ d0) (a14 ^^^ d1) (a24 ^^^ d2) (a34 ^^^ d3) (a44 ^^^ d4)

/-- first half of theta: from the column parities c, build d. -/
def keccakThetaC (rc a00 a10 a20 a30 a40 a01 a11 a21 a31 a41
    a02 a12 a22 a32 a42 a03 a13 a23 a33 a43 a04 a14 a24 a34 a44
    c0 c1 c2 c3 c4 : Nat) : List Nat :=
  keccakThetaD rc a00 a10 a20 a30 a40 a01 a11 a21 a31 a41
    a02 a12 a22 a32 a42 a03 a13 a23 a33 a43 a04 a14 a24 a34 a44
    (c4 ^^^ rotl c1 1) (c0 ^^^ rotl c2 1) (c1 ^^^ rotl c3 1)
    (c2 ^^^ rotl c4 1) (c3 ^^^ rotl c0 1)

/-- one round of keccak-f[1600]; the state is the 25 lanes in index order
x + 5*y, little-endian 64-bit words. -/
def keccakRound (s : List Nat) (rc : Nat) : List Nat :=
  match s with
  | [a00, a10, a20, a30, a40, a01, a11, a21, a31, a41,
     a02, a12, a22, a32, a42, a03, a13, a23, a33, a43,
     a04, a14, a24, a34, a44] =>
    keccakThetaC rc a00 a10 a20 a30 a40 a01 a11 a21 a31 a41
      a02 a12 a22 a32 a42 a03 a13 a23 a33 a43 a04 a14 a24 a34 a44
      (a00 ^^^ a01 ^^^ a02 ^^^ a03 ^^^ a04)
      (a10 ^^^ a11 ^^^ a12 ^^^ a13 ^^^ a14)
      (a20 ^^^ a21 ^^^ a22 ^^^ a23 ^^^ a24)
      (a30 ^^^ a31 ^^^ a32 ^^^ a33 ^^^ a34)
      (a40 ^^^ a41 ^^^ a42 ^^^ a43 ^^^ a44)
  | _ => s

def keccakF (s : List Nat) : List Nat := KECCAK_RC.foldl keccakRound s

/-- pack a byte list into 64-bit lanes, little-endian, 8 bytes per lane. -/
def lanesOfBytes : List Nat → List Nat
  | b0 :: b1 :: b2 :: b3 :: b4 :: b5 :: b6 :: b7 :: rest =>
    (b0 + 256 * (b1 + 256 * (b2 + 256 * (b3 + 256 * (b4 + 256 *
      (b5 + 256 * (b6 + 256 * b7))))))) :: lanesOfBytes rest
  | _ => []

/-- the 8 little-endian bytes of a 64-bit lane. -/
def laneBytesLE (w : Nat) : List Nat :=
  [w &&& 255, (w >>> 8) &&& 255, (w >>> 16) &&& 255, (w >>> 24) &&& 255,
   (w >>> 32) &&& 255, (w >>> 40) &&& 255, (w >>> 48) &&& 255, (w >>> 56) &&& 255]

/-- keccak-256 of a message of at most 134 bytes (a single absorbed block),
matching ethers::utils::keccak256 on such inputs: rate 1088, multi-rate
padding with domain byte 0x01, 32-byte digest. -/
def keccak256 (input : List Nat) : List Nat :=
  let padded := input ++ 1 :: List.replicate (134 - input.length) 0 ++ [128]
  match keccakF (lanesOfBytes padded ++ [0, 0, 0, 0, 0, 0, 0, 0]) with
  | w0 :: w1 :: w2 :: w3 :: _ => laneBytesLE w0 ++ laneBytesLE w1 ++ laneBytesLE w2 ++ laneBytesLE w3
  | _ => []

def bytesBE (bs : List Nat) : Nat := bs.foldl (fun acc b => acc * 256 + b) 0

def MODULUS : Nat := 21888242871839275222246405745257275088548364400416034343698204186575808495617

def seedBytes : List Nat := "mimcsponge".toList.map Char.toNat

def roundConstantsFrom : Nat → List Nat → List Nat
  | 0, _ => []
  | k + 1, bytes =>
    let bytes2 := keccak256 bytes
    (bytesBE bytes2 % MODULUS) :: roundConstantsFrom k bytes2

def ROUND_CONSTANTS : List Nat :=
  0 :: (roundConstantsFrom 218 (keccak256 seedBytes) ++ [0])

def rcLit : List Nat :=
  [0,
   7120861356467848435263064379192047478074060781135320967663101236819528304084,
   5024705281721889198577876690145313457398658950011302225525409148828000436681,
   17980351014018068290387269214713820287804403312720763401943303895585469787384,
   19886576439381707240399940949310933992335779767309383709787331470398675714258,
   1213715278223786725806155661738676903520350859678319590331207960381534602599,
   18162138253399958831050545255414688239130588254891200470934232514682584734511,
   7667462281466170157858259197976388676420847047604921256361474169980037581876,
   7207551498477838452286210989212982851118089401128156132319807392460388436957,
   9864183311657946807255900203841777810810224615118629957816193727554621093838,
   4798196928559910300796064665904583125427459076060519468052008159779219347957,
   17387238494588145257484818061490088963673275521250153686214197573695921400950,
   10005334761930299057035055370088813230849810566234116771751925093634136574742,
   11897542014760736209670863723231849628230383119798486487899539017466261308762,
   16771780563523793011283273687253985566177232886900511371656074413362142152543,
   749264854018824809464168489785113337925400687349357088413132714480582918506,
   3683645737503705042628598550438395339383572464204988015434959428676652575331,
   7556750851783822914673316211129907782679509728346361368978891584375551186255,
   20391289379084797414557439284689954098721219201171527383291525676334308303023,
   18146517657445423462330854383025300323335289319277199154920964274562014376193,
   8080173465267536232534446836148661251987053305394647905212781979099916615292,
   10796443006899450245502071131975731672911747129805343722228413358507805531141,
   5404287610364961067658660283245291234008692303120470305032076412056764726509,
   4623894483395123520243967718315330178025957095502546813929290333264120223168,
   16845753148201777192406958674202574751725237939980634861948953189320362207797,
   4622170486584704769521001011395820886029808520586507873417553166762370293671,
   16688277490485052681847773549197928630624828392248424077804829676011512392564,
   11878652861183667748838188993669912629573713271883125458838494308957689090959,
   2436445725746972287496138382764643208791713986676129260589667864467010129482,
   1888098689545151571063267806606510032698677328923740058080630641742325067877,
   148924106504065664829055598316821983869409581623245780505601526786791681102,
   18875020877782404439294079398043479420415331640996249745272087358069018086569,
   15189693413320228845990326214136820307649565437237093707846682797649429515840,
   19669450123472657781282985229369348220906547335081730205028099210442632534079,
   5521922218264623411380547905210139511350706092570900075727555783240701821773,
   4144769320246558352780591737261172907511489963810975650573703217887429086546,
   10097732913112662248360143041019433907849917041759137293018029019134392559350,
   1720059427972723034107765345743336447947522473310069975142483982753181038321,
   6302388219880227251325608388535181451187131054211388356563634768253301290116,
   6745410632962119604799318394592010194450845483518862700079921360015766217097,
   10858157235265583624235850660462324469799552996870780238992046963007491306222,
   20241898894740093733047052816576694435372877719072347814065227797906130857593,
   10165780782761211520836029617746977303303335603838343292431760011576528327409,
   2832093654883670345969792724123161241696170611611744759675180839473215203706,
   153011722355526826233082383360057587249818749719433916258246100068258954737,
   20196970640587451358539129330170636295243141659030208529338914906436009086943,
   3180973917010545328313139835982464870638521890385603025657430208141494469656,
   17198004293191777441573635123110935015228014028618868252989374962722329283022,
   7642160509228669138628515458941659189680509753651629476399516332224325757132,
   19346204940546791021518535594447257347218878114049998691060016493806845179755,
   11501810868606870391127866188394535330696206817602260610801897042898616817272,
   3113973447392053821824427670386252797811804954746053461397972968381571297505,
   6545064306297957002139416752334741502722251869537551068239642131448768236585,
   5203908808704813498389265425172875593837960384349653691918590736979872578408,
   2246692432011290582160062129070762007374502637007107318105405626910313810224,
   11760570435432189127645691249600821064883781677693087773459065574359292849137,
   5543749482491340532547407723464609328207990784853381797689466144924198391839,
   8837549193990558762776520822018694066937602576881497343584903902880277769302,
   12855514863299373699594410385788943772765811961581749194183533625311486462501,
   5363660674689121676875069134269386492382220935599781121306637800261912519729,
   13162342403579303950549728848130828093497701266240457479693991108217307949435,
   916941639326869583414469202910306428966657806899788970948781207501251816730,
   15618589556584434434009868216186115416835494805174158488636000580759692174228,
   8959562060028569701043973060670353733575345393653685776974948916988033453971,
   16390754464333401712265575949874369157699293840516802426621216808905079127650,
   168282396747788514908709091757591226095443902501365500003618183905496160435,
   8327443473179334761744301768309008451162322941906921742120510244986704677004,
   17213012626801210615058753489149961717422101711567228037597150941152495100640,
   10394369641533736715250242399198097296122982486516256408681925424076248952280,
   17784386835392322654196171115293700800825771210400152504776806618892170162248,
   16533189939837087893364000390641148516479148564190420358849587959161226782982,
   18725396114211370207078434315900726338547621160475533496863298091023511945076,
   7132325028834551397904855671244375895110341505383911719294705267624034122405,
   148317947440800089795933930720822493695520852448386394775371401743494965187,
   19001050671757720352890779127693793630251266879994702723636759889378387053056,
   18824274411769830274877839365728651108434404855803844568234862945613766611460,
   12771414330193951156383998390424063470766226667986423961689712557338777174205,
   11332046574800279729678603488745295198038913503395629790213378101166488244657,
   9607550223176946388146938069307456967842408600269548190739947540821716354749,
   8756385288462344550200229174435953103162307705310807828651304665320046782583,
   176061952957067086877570020242717222844908281373122372938833890096257042779,
   12200212977482648306758992405065921724409841940671166017620928947866825250857,
   10868453624107875516866146499877130701929063632959660262366632833504750028858,
   2016095394399807253596787752134573207202567875457560571095586743878953450738,
   21815578223768330433802113452339488275704145896544481092014911825656390567514,
   4923772847693564777744725640710197015181591950368494148029046443433103381621,
   1813584943682214789802230765734821149202472893379265320098816901270224589984,
   10810123816265612772922113403831964815724109728287572256602010709288980656498,
   1153669123397255702524721206511185557982017410156956216465120456256288427021,
   5007518659266430200134478928344522649876467369278722765097865662497773767152,
   2511432546938591792036639990606464315121646668029252285288323664350666551637,
   32883284540320451295484135704808083452381176816565850047310272290579727564,
   10484856914279112612610993418405543310546746652738541161791501150994088679557,
   2026733759645519472558796412979210009170379159866522399881566309631434814953,
   14731806221235869882801331463708736361296174006732553130708107037190460654379,
   14740327483193277147065845135561988641238516852487657117813536909482068950652,
   18787428285295558781869865751953016580493190547148386433580291216673009884554,
   3804047064713122820157099453648459188816376755739202017447862327783289895072,
   16709604795697901641948603019242067672006293290826991671766611326262532802914,
   11061717085931490100602849654034280576915102867237101935487893025907907250695,
   2821730726367472966906149684046356272806484545281639696873240305052362149654,
   17467794879902895769410571945152708684493991588672014763135370927880883292655,
   1571520786233540988201616650622796363168031165456869481368085474420849243232,
   10041051776251223165849354194892664881051125330236567356945669006147134614302,
   3981753758468103976812813304477670033098707002886030847251581853700311567551,
   4365864398105436789177703571412645548020537580493599380018290523813331678900,
   2391801327305361293476178683853802679507598622000359948432171562543560193350,
   214219368547551689972421167733597094823289857206402800635962137077096090722,
   18192064100315141084242006659317257023098826945893371479835220462302399655674,
   15487549757142039139328911515400805508248576685795694919457041092150651939253,
   10142447197759703415402259672441315777933858467700579946665223821199077641122,
   11246573086260753259993971254725613211193686683988426513880826148090811891866,
   6574066859860991369704567902211886840188702386542112593710271426704432301235,
   11311085442652291634822798307831431035776248927202286895207125867542470350078,
   20977948360215259915441258687649465618185769343138135384346964466965010873779,
   792781492853909872425531014397300057232399608769451037135936617996830018501,
   5027602491523497423798779154966735896562099398367163998686335127580757861872,
   14595204575654316237672764823862241845410365278802914304953002937313300553572,
   13973538843621261113924259058427434053808430378163734641175100160836376897004,
   16395063164993626722686882727042150241125309409717445381854913964674649318585,
   8465768840047024550750516678171433288207841931251654898809033371655109266663,
   21345603324471810861925019445720576814602636473739003852898308205213912255830,
   21171984405852590343970239018692870799717057961108910523876770029017785940991,
   10761027113757988230637066281488532903174559953630210849190212601991063767647,
   6678298831065390834922566306988418588227382406175769592902974103663687992230,
   4993662582188632374202316265508850988596880036291765531885657575099537176757,
   18364168158495573675698600238443218434246806358811328083953887470513967121206,
   3506345610354615013737144848471391553141006285964325596214723571988011984829,
   248732676202643792226973868626360612151424823368345645514532870586234380100,
   10090204501612803176317709245679152331057882187411777688746797044706063410969,
   21297149835078365363970699581821844234354988617890041296044775371855432973500,
   16729368143229828574342820060716366330476985824952922184463387490091156065099,
   4467191506765339364971058668792642195242197133011672559453028147641428433293,
   8677548159358013363291014307402600830078662555833653517843708051504582990832,
   1022951765127126818581466247360193856197472064872288389992480993218645055345,
   1888195070251580606973417065636430294417895423429240431595054184472931224452,
   4221265384902749246920810956363310125115516771964522748896154428740238579824,
   2825393571154632139467378429077438870179957021959813965940638905853993971879,
   19171031072692942278056619599721228021635671304612437350119663236604712493093,
   10780807212297131186617505517708903709488273075252405602261683478333331220733,
   18230936781133176044598070768084230333433368654744509969087239465125979720995,
   16901065971871379877929280081392692752968612240624985552337779093292740763381,
   146494141603558321291767829522948454429758543710648402457451799015963102253,
   2492729278659146790410698334997955258248120870028541691998279257260289595548,
   2204224910006646535594933495262085193210692406133533679934843341237521233504,
   16062117410185840274616925297332331018523844434907012275592638570193234893570,
   5894928453677122829055071981254202951712129328678534592916926069506935491729,
   4947482739415078212217504789923078546034438919537985740403824517728200332286,
   16143265650645676880461646123844627780378251900510645261875867423498913438066,
   397690828254561723549349897112473766901585444153303054845160673059519614409,
   11272653598912269895509621181205395118899451234151664604248382803490621227687,
   15566927854306879444693061574322104423426072650522411176731130806720753591030,
   14222898219492484180162096141564251903058269177856173968147960855133048449557,
   16690275395485630428127725067513114066329712673106153451801968992299636791385,
   3667030990325966886479548860429670833692690972701471494757671819017808678584,
   21280039024501430842616328642522421302481259067470872421086939673482530783142,
   15895485136902450169492923978042129726601461603404514670348703312850236146328,
   7733050956302327984762132317027414325566202380840692458138724610131603812560,
   438123800976401478772659663183448617575635636575786782566035096946820525816,
   814913922521637742587885320797606426167962526342166512693085292151314976633,
   12368712287081330853637674140264759478736012797026621876924395982504369598764,
   2494806857395134874309386694756263421445039103814920780777601708371037591569,
   16101132301514338989512946061786320637179843435886825102406248183507106312877,
   6252650284989960032925831409804233477770646333900692286731621844532438095656,
   9277135875276787021836189566799935097400042171346561246305113339462708861695,
   10493603554686607050979497281838644324893776154179810893893660722522945589063,
   8673089750662709235894359384294076697329948991010184356091130382437645649279,
   9558393272910366944245875920138649617479779893610128634419086981339060613250,
   19012287860122586147374214541764572282814469237161122489573881644994964647218,
   9783723818270121678386992630754842961728702994964214799008457449989291229500,
   15550788416669474113213749561488122552422887538676036667630838378023479382689,
   15016165746156232864069722572047169071786333815661109750860165034341572904221,
   6506225705710197163670556961299945987488979904603689017479840649664564978574,
   10796631184889302076168355684722130903785890709107732067446714470783437829037,
   19871836214837460419845806980869387567383718044439891735114283113359312279540,
   20871081766843466343749609089986071784031203517506781251203251608363835140622,
   5100105771517691442278432864090229416166996183792075307747582375962855820797,
   8777887112076272395250620301071581171386440850451972412060638225741125310886,
   5300440870136391278944213332144327695659161151625757537632832724102670898756,
   1205448543652932944633962232545707633928124666868453915721030884663332604536,
   5542499997310181530432302492142574333860449305424174466698068685590909336771,
   11028094245762332275225364962905938096659249161369092798505554939952525894293,
   19187314764836593118404597958543112407224947638377479622725713735224279297009,
   17047263688548829001253658727764731047114098556534482052135734487985276987385,
   19914849528178967155534624144358541535306360577227460456855821557421213606310,
   2929658084700714257515872921366736697080475676508114973627124569375444665664,
   15092262360719700162343163278648422751610766427236295023221516498310468956361,
   21578580340755653236050830649990190843552802306886938815497471545814130084980,
   1258781501221760320019859066036073675029057285507345332959539295621677296991,
   3819598418157732134449049289585680301176983019643974929528867686268702720163,
   8653175945487997845203439345797943132543211416447757110963967501177317426221,
   6614652990340435611114076169697104582524566019034036680161902142028967568142,
   19212515502973904821995111796203064175854996071497099383090983975618035391558,
   18664315914479294273286016871365663486061896605232511201418576829062292269769,
   11498264615058604317482574216318586415670903094838791165247179252175768794889,
   10814026414212439999107945133852431304483604215416531759535467355316227331774,
   17566185590731088197064706533119299946752127014428399631467913813769853431107,
   14016139747289624978792446847000951708158212463304817001882956166752906714332,
   8242601581342441750402731523736202888792436665415852106196418942315563860366,
   9244680976345080074252591214216060854998619670381671198295645618515047080988,
   12216779172735125538689875667307129262237123728082657485828359100719208190116,
   10702811721859145441471328511968332847175733707711670171718794132331147396634,
   6479667912792222539919362076122453947926362746906450079329453150607427372979,
   15117544653571553820496948522381772148324367479772362833334593000535648316185,
   6842203153996907264167856337497139692895299874139131328642472698663046726780,
   12732823292801537626009139514048596316076834307941224506504666470961250728055,
   6936272626871035740815028148058841877090860312517423346335878088297448888663,
   17297554111853491139852678417579991271009602631577069694853813331124433680030,
   16641596134749940573104316021365063031319260205559553673368334842484345864859,
   7400481189785154329569470986896455371037813715804007747228648863919991399081,
   2273205422216987330510475127669563545720586464429614439716564154166712854048,
   15162538063742142685306302282127534305212832649282186184583465569986719234456,
   5628039096440332922248578319648483863204530861778160259559031331287721255522,
   16085392195894691829567913404182676871326863890140775376809129785155092531260,
   14227467863135365427954093998621993651369686288941275436795622973781503444257,
   18224457394066545825553407391290108485121649197258948320896164404518684305122,
   274945154732293792784580363548970818611304339008964723447672490026510689427,
   11050822248291117548220126630860474473945266276626263036056336623671308219529,
   2119542016932434047340813757208803962484943912710204325088879681995922344971,
   0]

/-- one sponge round: t = (L + c) mod p, then t^5 mod p computed as two
squarings and a multiply, exactly as the source does. -/
def roundT5 (l c : Nat) : Nat :=
  let t := (l + c) % MODULUS
  let t2 := t * t % MODULUS
  let t4 := t2 * t2 % MODULUS
  t * t4 % MODULUS

/-- the 220-round feistel permutation of mimc_hash.rs hash: every round except
the last performs the delayed swap (new_val, L); the final round replaces only
the right component. The singleton case is the i = NUM_ROUNDS - 1 branch of
the source loop. -/
def mimcFeistel : List Nat → Nat → Nat → Nat × Nat
  | [], l, r => (l, r)
  | [c], l, r => (l, (r + roundT5 l c) % MODULUS)
  | c :: c2 :: cs, l, r => mimcFeistel (c2 :: cs) ((r + roundT5 l c) % MODULUS) l

/-- mimc_hash.rs hash: reduce both inputs, then run all rounds. -/
def hash (left right : Nat) : Nat × Nat :=
  mimcFeistel ROUND_CONSTANTS (left % MODULUS) (right % MODULUS)

end MimcHash

/-- a leaf element of the Merkle tree, a value of the prime field; field values
are opaque to the versioned-tree engine, so they are represented by Nat. -/
abbrev Hash := Nat

/-- model of the semaphore crate PoseidonTree. Modelled from the spec: the tree
type is external to this repository (the semaphore crate); spec section 4.2
describes a fixed-depth tree with 2 ^ depth leaves, all initialized to a
configured value, with leaf set, get, root and proof operations. All internal
node hashes are a function of the leaf array, so the depth together with the
leaf array determines the tree state bit for bit; the model carries exactly
that data, and `set` writes one leaf. -/
structure PoseidonTree where
  depth : Nat
  leaves : List Hash
deriving DecidableEq

/-- PoseidonTree::new(depth, initial_leaf): all 2 ^ depth leaves hold the
initial value. -/
def PoseidonTree.new (tree_depth : Nat) (initial_leaf : Hash) : PoseidonTree :=
  ⟨tree_depth, List.replicate (2 ^ tree_depth) initial_leaf⟩

/-- tree.set(index, value): writes one leaf (in range by the caller's
contract; out of range is fatal in the source and unreachable here). -/
def PoseidonTree.set (t : PoseidonTree) (index : Nat) (value : Hash) : PoseidonTree :=
  { t with leaves := t.leaves.set index value }

/-- the leaf stored at an index. -/
def PoseidonTree.get (t : PoseidonTree) (index : Nat) : Hash :=
  t.leaves.getD index 0

/-- identity_tree.rs TreeUpdate: one intended leaf mutation. -/
structure TreeUpdate where
  leaf_index : Nat
  element : Hash
deriving DecidableEq

/-- identity_tree.rs TreeVersionData. The Rust field `next` holds an optional
shared handle to the child version; shared mutable state is modelled by
passing the child version explicitly to the operations that touch it, and the
Boolean has_next records whether the child link is present. -/
structure TreeVersionData where
  tree : PoseidonTree
  diff : List TreeUpdate
  next_leaf : Nat
  has_next : Bool
deriving DecidableEq

/-- TreeVersionData::empty. -/
def TreeVersionData.empty (tree_depth : Nat) (initial_leaf : Hash) : TreeVersionData :=
  { tree := PoseidonTree.new tree_depth initial_leaf
    diff := []
    next_leaf := 0
    has_next := false }

/-- TreeVersionData::update_without_diff: the diff-free leaf-set path. -/
def TreeVersionData.update_without_diff (d : TreeVersionData) (leaf_index : Nat)
    (element : Hash) : TreeVersionData :=
  { d with tree := d.tree.set leaf_index element, next_leaf := leaf_index + 1 }

/-- TreeVersionData::update: leaf set plus an appended diff entry. -/
def TreeVersionData.update (d : TreeVersionData) (leaf_index : Nat)
    (element : Hash) : TreeVersionData :=
  { d.update_without_diff leaf_index element with
      diff := d.diff ++ [{ leaf_index := leaf_index, element := element }] }

/-- TreeVersionData::next_version: mutates self to record the child link and
returns the fresh child; modelled as returning (updated parent, child). -/
def TreeVersionData.next_version (d : TreeVersionData) :
    TreeVersionData × TreeVersionData :=
  ({ d with has_next := true },
   { tree := d.tree, diff := [], next_leaf := d.next_leaf, has_next := false })

/-- TreeVersionData::apply_next_update, with the child version (the target of
the Rust `next` handle) passed explicitly: when a child exists and its diff is
non-empty, apply the first child diff entry to self via update and pop it from
the child. Returns (updated self, updated child). -/
def TreeVersionData.apply_next_update (d : TreeVersionData) (next : TreeVersionData) :
    TreeVersionData × TreeVersionData :=
  if d.has_next then
    match next.diff with
    | [] => (d, next)
    | u :: rest => (d.update u.leaf_index u.element, { next with diff := rest })
  else (d, next)

/-- TreeVersion::append_many_fresh: snapshots next_leaf, then applies (with
diff recording) exactly the updates whose leaf_index is at least the snapshot.
The Rust filter-then-for_each over the iterator is the same as filtering first
and folding update, because the filter predicate only reads the snapshot. -/
def TreeVersionData.append_many_fresh (d : TreeVersionData)
    (updates : List TreeUpdate) : TreeVersionData :=
  let next_leaf := d.next_leaf
  (updates.filter fun u => next_leaf ≤ u.leaf_index).foldl
    (fun acc u => acc.update u.leaf_index u.element) d

/-- folds a list of updates through the diff-recording update path. -/
def applyUpdates (d : TreeVersionData) (updates : List TreeUpdate) : TreeVersionData :=
  updates.foldl (fun acc u => acc.update u.leaf_index u.element) d

/-- folds a list of updates through the diff-free update path. -/
def applyUpdatesWithoutDiff (d : TreeVersionData) (updates : List TreeUpdate) :
    TreeVersionData :=
  updates.foldl (fun acc u => acc.update_without_diff u.leaf_index u.element) d

/-- folds a list of updates through the raw leaf-set path of the tree alone. -/
def applyLeafSets (t : PoseidonTree) (updates : List TreeUpdate) : PoseidonTree :=
  updates.foldl (fun acc u => acc.set u.leaf_index u.element) t

/-- n repetitions of apply_next_update on a (parent, child) pair. -/
def applyNextUpdateN : Nat → TreeVersionData × TreeVersionData →
    TreeVersionData × TreeVersionData
  | 0, st => st
  | n + 1, st => applyNextUpdateN n (st.1.apply_next_update st.2)

/-- identity_tree.rs CanonicalTreeBuilder: a one-shot builder wrapping a
TreeVersionData. -/
structure CanonicalTreeBuilder where
  data : TreeVersionData
deriving DecidableEq

/-- CanonicalTreeBuilder::new. -/
def CanonicalTreeBuilder.new (tree_depth : Nat) (initial_leaf : Hash) :
    CanonicalTreeBuilder :=
  ⟨TreeVersionData.empty tree_depth initial_leaf⟩

/-- CanonicalTreeBuilder::append: the diff-free leaf-set path. -/
def CanonicalTreeBuilder.append (b : CanonicalTreeBuilder) (update : TreeUpdate) :
    CanonicalTreeBuilder :=
  ⟨b.data.update_without_diff update.leaf_index update.element⟩

/-- CanonicalTreeBuilder::seal: consumes the builder and exposes its data as a
tree version. -/
def CanonicalTreeBuilder.seal (b : CanonicalTreeBuilder) : TreeVersionData :=
  b.data

/-- the states (mined, latest) reachable by the intended protocol: latest is
branched from the sealed mined version by next_version, fresh contiguous
updates (each at the current latest next_leaf) go only to latest, and
apply_next_update is driven on mined with latest as its child. -/
inductive Reach : TreeVersionData → TreeVersionData → Prop where
  | init (d : TreeVersionData) : Reach d.next_version.1 d.next_version.2
  | insert {m l : TreeVersionData} (e : Hash) :
      Reach m l → Reach m (l.update l.next_leaf e)
  | applyStep {m l : TreeVersionData} :
      Reach m l → Reach (m.apply_next_update l).1 (m.apply_next_update l).2

/-- the concrete (mined, latest) pair used to witness C2: branch from an
empty version of depth 2, insert one element into latest, apply it to mined. -/
def c2wPair : TreeVersionData × TreeVersionData :=
  (TreeVersionData.empty 2 0).next_version.1.apply_next_update
    ((TreeVersionData.empty 2 0).next_version.2.update
      (TreeVersionData.empty 2 0).next_version.2.next_leaf 5)

/-- the concrete parent used to witness C3. -/
def c3wParent : TreeVersionData := (TreeVersionData.empty 1 0).next_version.1

/-- the concrete child used to witness C3. -/
def c3wChild : TreeVersionData := (TreeVersionData.empty 1 0).next_version.2.update 0 7

/-- the concrete version state used to witness C10. -/
def c10wD : TreeVersionData := (TreeVersionData.empty 2 0).update 0 3

/-- the concrete starting version used to witness C4. -/
def c4wD : TreeVersionData := TreeVersionData.empty 2 0

/-- identity_tree.rs Status. -/
inductive Status where
  | Pending
  | Mined
deriving DecidableEq

/-- identity_tree.rs UnknownStatus, the parse error value. -/
structure UnknownStatus where
deriving DecidableEq

/-- FromStr for Status: the Rust match on the two recognized literals,
written as the equivalent chain of string comparisons. -/
def Status.from_str (s : String) : Except UnknownStatus Status :=
  if s = "pending" then Except.ok Status.Pending
  else if s = "mined" then Except.ok Status.Mined
  else Except.error {}

/-- the externally visible actions App::insert_identity can perform, in the
order the source performs them. -/
inductive LedgerAction where
  | getBlockNumber
  | createFile
  | writeFile
  | sendTransaction
  | awaitReceipt
deriving DecidableEq

/-- the App state that insert_identity touches: the Merkle tree leaves
(Modelled from the spec: the MimcTree type of app.rs lives in a module that is
not part of the sources; spec sections 4.2 and 6 describe it as a leaf array
with set) and the last_leaf counter. -/
structure AppState where
  merkle_tree : List Hash
  last_leaf : Nat
deriving DecidableEq

/-- App::insert_identity as its sequence of effects: set the leaf, fetch the
block number, create the commitments file, serialize the snapshot into it,
then build and send the insert-identity transaction and await the receipt.
Each fallible external call is modelled by its outcome passed as an argument;
an error outcome propagates immediately (the Rust question-mark operator), and
the returned action list records the calls actually issued, in order.
send_transaction itself is unwrapped in the source (panic on failure), so only
its successful outcome appears. -/
def insert_identity (st : AppState) (commitment : Hash)
    (block_number : Except Unit Nat) (create_file : Except Unit Unit)
    (write_json : Except Unit Unit) (tx_receipt : Except Unit Unit) :
    AppState × Except Unit Unit × List LedgerAction :=
  let st2 : AppState :=
    { merkle_tree := st.merkle_tree.set st.last_leaf commitment
      last_leaf := st.last_leaf + 1 }
  match block_number with
  | Except.error e => (st2, Except.error e, [LedgerAction.getBlockNumber])
  | Except.ok _ =>
    match create_file with
    | Except.error e =>
      (st2, Except.error e, [LedgerAction.getBlockNumber, LedgerAction.createFile])
    | Except.ok _ =>
      match write_json with
      | Except.error e =>
        (st2, Except.error e,
          [LedgerAction.getBlockNumber, LedgerAction.createFile, LedgerAction.writeFile])
      | Except.ok _ =>
        match tx_receipt with
        | Except.error e =>
          (st2, Except.error e,
            [LedgerAction.getBlockNumber, LedgerAction.createFile,
             LedgerAction.writeFile, LedgerAction.sendTransaction,
             LedgerAction.awaitReceipt])
        | Except.ok _ =>
          (st2, Except.ok (),
            [LedgerAction.getBlockNumber, LedgerAction.createFile,
             LedgerAction.writeFile, LedgerAction.sendTransaction,
             LedgerAction.awaitReceipt])

namespace MimcHash

/-- digest chain step 0: keccak-256 of the ASCII seed "mimcsponge". -/
theorem digStep0 : keccak256 seedBytes = [16, 82, 146, 119, 223, 95, 85, 0, 180, 236, 58, 51, 222, 95, 117, 135, 32, 7, 63, 67, 70, 51, 244, 73, 29, 205, 159, 166, 55, 36, 149, 32] := by decide

/-- digest chain step 1. -/
theorem digStep1 : keccak256 [16, 82, 146, 119, 223, 95, 85, 0, 180, 236, 58, 51, 222, 95, 117, 135, 32, 7, 63, 67, 70, 51, 244, 73, 29, 205, 159, 166, 55, 36, 149, 32] = [15, 190, 67, 195, 106, 128, 227, 109, 124, 124, 88, 77, 79, 143, 55, 89, 251, 81, 240, 214, 96, 101, 216, 162, 39, 182, 136, 209, 36, 136, 197, 212] := by decide

/-- digest chain step 2. -/
theorem digStep2 : keccak256 [15, 190, 67, 195, 106, 128, 227, 109, 124, 124, 88, 77, 79, 143, 55, 89, 251, 81, 240, 214, 96, 101, 216, 162, 39, 182, 136, 209, 36, 136, 197, 212] = [156, 72, 205, 62, 0, 166, 25, 90, 37, 63, 192, 9, 230, 15, 36, 148, 86, 248, 2, 255, 155, 175, 101, 73, 33, 13, 32, 19, 33, 239, 193, 204] := by decide

/-- digest chain step 3. -/
theorem digStep3 : keccak256 [156, 72, 205, 62, 0, 166, 25, 90, 37, 63, 192, 9, 230, 15, 36, 148, 86, 248, 2, 255, 155, 175, 101, 73, 33, 13, 32, 19, 33, 239, 193, 204] = [39, 192, 132, 157, 186, 38, 67, 7, 124, 19, 235, 66, 255, 185, 118, 99, 205, 206, 205, 102, 155, 241, 15, 117, 107, 227, 11, 171, 113, 184, 108, 248] := by decide

/-- digest chain step 4. -/
theorem digStep4 : keccak256 [39, 192, 132, 157, 186, 38, 67, 7, 124, 19, 235, 66, 255, 185, 118, 99, 205, 206, 205, 102, 155, 241, 15, 117, 107, 227, 11, 171, 113, 184, 108, 248] = [43, 247, 103, 68, 115, 97, 50, 229, 198, 143, 125, 253, 213, 183, 146, 104, 29, 65, 80, 152, 85, 79, 216, 40, 15, 0, 209, 27, 23, 43, 128, 210] := by decide

/-- digest chain step 5. -/
theorem digStep5 : keccak256 [43, 247, 103, 68, 115, 97, 50, 229, 198, 143, 125, 253, 213, 183, 146, 104, 29, 65, 80, 152, 85, 79, 216, 40, 15, 0, 209, 27, 23, 43, 128, 210] = [51, 19, 62, 180, 161, 161, 171, 69, 3, 124, 139, 223, 154, 219, 178, 153, 155, 175, 6, 242, 10, 156, 149, 24, 13, 196, 204, 220, 190, 197, 133, 104] := by decide

/-- digest chain step 6. -/
theorem digStep6 : keccak256 [51, 19, 62, 180, 161, 161, 171, 69, 3, 124, 139, 223, 154, 219, 178, 153, 155, 175, 6, 242, 10, 156, 149, 24, 13, 196, 204, 220, 190, 197, 133, 104] = [88, 139, 182, 96, 18, 53, 109, 188, 155, 5, 158, 241, 215, 146, 181, 99, 214, 193, 134, 36, 221, 222, 204, 63, 228, 88, 63, 211, 85, 30, 155, 48] := by decide

/-- digest chain step 7. -/
theorem digStep7 : keccak256 [88, 139, 182, 96, 18, 53, 109, 188, 155, 5, 158, 241, 215, 146, 181, 99, 214, 193, 134, 36, 221, 222, 204, 63, 228, 88, 63, 211, 85, 30, 155, 48] = [113, 188, 62, 36, 78, 27, 146, 145, 31, 231, 245, 60, 245, 35, 228, 145, 253, 111, 244, 135, 213, 147, 55, 161, 217, 47, 146, 102, 140, 79, 76, 54] := by decide

/-- digest chain step 8. -/
theorem digStep8 : keccak256 [113, 188, 62, 36, 78, 27, 146, 145, 31, 231, 245, 60, 245, 35, 228, 145, 253, 111, 244, 135, 213, 147, 55, 161, 217, 47, 146, 102, 140, 79, 76, 54] = [209, 128, 142, 43, 3, 159, 208, 16, 196, 137, 118, 143, 120, 215, 73, 153, 56, 204, 192, 133, 143, 50, 149, 21, 23, 135, 207, 232, 183, 228, 11, 225] := by decide

/-- digest chain step 9. -/
theorem digStep9 : keccak256 [209, 128, 142, 43, 3, 159, 208, 16, 196, 137, 118, 143, 120, 215, 73, 153, 56, 204, 192, 133, 143, 50, 149, 21, 23, 135, 207, 232, 183, 228, 11, 225] = [118, 151, 138, 243, 222, 212, 55, 207, 65, 179, 250, 164, 12, 214, 188, 252, 233, 79, 39, 244, 171, 204, 62, 211, 75, 225, 154, 189, 44, 69, 55, 208] := by decide

/-- digest chain step 10. -/
theorem digStep10 : keccak256 [118, 151, 138, 243, 222, 212, 55, 207, 65, 179, 250, 164, 12, 214, 188, 252, 233, 79, 39, 244, 171, 204, 62, 211, 75, 225, 154, 189, 44, 69, 55, 208] = [10, 155, 174, 231, 152, 163, 32, 176, 202, 91, 28, 248, 136, 56, 109, 29, 193, 44, 19, 179, 142, 16, 34, 90, 164, 233, 240, 48, 105, 160, 153, 245] := by decide

/-- digest chain step 11. -/
theorem digStep11 : keccak256 [10, 155, 174, 231, 152, 163, 32, 176, 202, 91, 28, 248, 136, 56, 109, 29, 193, 44, 19, 179, 142, 16, 34, 90, 164, 233, 240, 48, 105, 160, 153, 245] = [183, 157, 191, 96, 80, 160, 59, 22, 195, 173, 232, 215, 126, 17, 199, 103, 210, 37, 26, 249, 205, 189, 108, 223, 154, 138, 14, 233, 33, 179, 44, 121] := by decide

/-- digest chain step 12. -/
theorem digStep12 : keccak256 [183, 157, 191, 96, 80, 160, 59, 22, 195, 173, 232, 215, 126, 17, 199, 103, 210, 37, 26, 249, 205, 189, 108, 223, 154, 138, 14, 233, 33, 179, 44, 121] = [167, 75, 188, 245, 6, 127, 6, 127, 174, 194, 204, 228, 185, 141, 19, 13, 121, 39, 69, 111, 92, 95, 108, 0, 224, 245, 64, 106, 36, 235, 139, 25] := by decide

/-- digest chain step 13. -/
theorem digStep13 : keccak256 [167, 75, 188, 245, 6, 127, 6, 127, 174, 194, 204, 228, 185, 141, 19, 13, 121, 39, 69, 111, 92, 95, 108, 0, 224, 245, 64, 106, 36, 235, 139, 25] = [171, 122, 176, 128, 212, 196, 1, 139, 218, 110, 204, 139, 214, 116, 104, 188, 70, 25, 186, 18, 242, 91, 13, 168, 121, 166, 57, 199, 88, 200, 133, 93] := by decide

/-- digest chain step 14. -/
theorem digStep14 : keccak256 [171, 122, 176, 128, 212, 196, 1, 139, 218, 110, 204, 139, 214, 116, 104, 188, 70, 25, 186, 18, 242, 91, 13, 168, 121, 166, 57, 199, 88, 200, 133, 93] = [230, 165, 183, 151, 194, 187, 167, 233, 168, 115, 179, 127, 92, 65, 173, 196, 119, 101, 233, 190, 74, 31, 14, 6, 80, 230, 162, 74, 210, 38, 135, 99] := by decide

/-- digest chain step 15. -/
theorem digStep15 : keccak256 [230, 165, 183, 151, 194, 187, 167, 233, 168, 115, 179, 127, 92, 65, 173, 196, 119, 101, 233, 190, 74, 31, 14, 6, 80, 230, 162, 74, 210, 38, 135, 99] = [98, 112, 174, 135, 207, 61, 130, 207, 156, 11, 95, 66, 132, 102, 196, 41, 215, 183, 203, 226, 52, 206, 207, 243, 153, 105, 23, 26, 240, 6, 1, 108] := by decide

/-- digest chain step 16. -/
theorem digStep16 : keccak256 [98, 112, 174, 135, 207, 61, 130, 207, 156, 11, 95, 66, 132, 102, 196, 41, 215, 183, 203, 226, 52, 206, 207, 243, 153, 105, 23, 26, 240, 6, 1, 108] = [153, 81, 201, 246, 231, 109, 99, 107, 82, 247, 96, 13, 151, 156, 169, 243, 182, 67, 223, 190, 149, 81, 200, 59, 49, 84, 40, 48, 50, 27, 42, 102] := by decide

/-- digest chain step 17. -/
theorem digStep17 : keccak256 [153, 81, 201, 246, 231, 109, 99, 107, 82, 247, 96, 13, 151, 156, 169, 243, 182, 67, 223, 190, 149, 81, 200, 59, 49, 84, 40, 48, 50, 27, 42, 102] = [65, 25, 70, 158, 68, 34, 156, 196, 12, 79, 245, 85, 162, 182, 246, 179, 153, 97, 8, 142, 116, 30, 60, 32, 163, 201, 180, 127, 19, 12, 85, 80] := by decide

/-- digest chain step 18. -/
theorem digStep18 : keccak256 [65, 25, 70, 158, 68, 34, 156, 196, 12, 79, 245, 85, 162, 182, 246, 179, 153, 97, 8, 142, 116, 30, 60, 32, 163, 201, 180, 127, 19, 12, 85, 80] = [93, 121, 94, 2, 187, 175, 144, 255, 31, 56, 71, 65, 229, 241, 143, 139, 100, 74, 0, 128, 68, 19, 21, 208, 229, 179, 200, 18, 52, 82, 160, 176] := by decide

/-- digest chain step 19. -/
theorem digStep19 : keccak256 [93, 121, 94, 2, 187, 175, 144, 255, 31, 56, 71, 65, 229, 241, 143, 139, 100, 74, 0, 128, 68, 19, 21, 208, 229, 179, 200, 18, 52, 82, 160, 176] = [40, 30, 144, 165, 21, 230, 64, 158, 145, 119, 180, 242, 151, 248, 4, 156, 227, 212, 195, 101, 148, 35, 196, 139, 63, 214, 78, 131, 89, 111, 241, 1] := by decide

/-- digest chain step 20. -/
theorem digStep20 : keccak256 [40, 30, 144, 165, 21, 230, 64, 158, 145, 119, 180, 242, 151, 248, 4, 156, 227, 212, 195, 101, 148, 35, 196, 139, 63, 214, 78, 131, 89, 111, 241, 1] = [66, 65, 133, 198, 10, 33, 232, 73, 112, 247, 211, 44, 172, 170, 39, 37, 170, 138, 132, 76, 174, 167, 237, 118, 13, 43, 150, 90, 241, 191, 62, 125] := by decide

/-- digest chain step 21. -/
theorem digStep21 : keccak256 [66, 65, 133, 198, 10, 33, 232, 73, 112, 247, 211, 44, 172, 170, 39, 37, 170, 138, 132, 76, 174, 167, 237, 118, 13, 43, 150, 90, 241, 191, 62, 125] = [217, 111, 203, 195, 150, 6, 20, 234, 136, 125, 166, 9, 24, 122, 93, 173, 162, 225, 184, 41, 242, 51, 9, 166, 55, 82, 18, 206, 161, 242, 92, 9] := by decide

/-- digest chain step 22. -/
theorem digStep22 : keccak256 [217, 111, 203, 195, 150, 6, 20, 234, 136, 125, 166, 9, 24, 122, 93, 173, 162, 225, 184, 41, 242, 51, 9, 166, 55, 82, 18, 206, 161, 242, 92, 9] = [253, 232, 64, 38, 215, 194, 148, 48, 10, 241, 143, 119, 18, 252, 54, 98, 244, 51, 135, 174, 140, 247, 253, 218, 31, 154, 129, 15, 75, 36, 188, 242] := by decide

/-- digest chain step 23. -/
theorem digStep23 : keccak256 [253, 232, 64, 38, 215, 194, 148, 48, 10, 241, 143, 119, 18, 252, 54, 98, 244, 51, 135, 174, 140, 247, 253, 218, 31, 154, 129, 15, 75, 36, 188, 242] = [58, 157, 86, 133, 117, 132, 106, 166, 184, 168, 144, 179, 194, 55, 253, 4, 71, 66, 109, 184, 120, 230, 226, 83, 51, 184, 235, 155, 56, 97, 149, 193] := by decide

/-- digest chain step 24. -/
theorem digStep24 : keccak256 [58, 157, 86, 133, 117, 132, 106, 166, 184, 168, 144, 179, 194, 55, 253, 4, 71, 66, 109, 184, 120, 230, 226, 83, 51, 184, 235, 155, 56, 97, 149, 193] = [85, 162, 170, 50, 200, 74, 76, 174, 25, 109, 212, 9, 75, 104, 93, 209, 23, 87, 71, 10, 59, 224, 148, 217, 142, 234, 115, 240, 36, 82, 170, 54] := by decide

/-- digest chain step 25. -/
theorem digStep25 : keccak256 [85, 162, 170, 50, 200, 74, 76, 174, 25, 109, 212, 9, 75, 104, 93, 209, 23, 87, 71, 10, 59, 224, 148, 217, 142, 234, 115, 240, 36, 82, 170, 54] = [203, 201, 72, 19, 128, 151, 141, 41, 235, 197, 176, 168, 212, 72, 28, 210, 239, 101, 78, 232, 0, 144, 122, 219, 61, 56, 220, 47, 217, 38, 95, 171] := by decide

/-- digest chain step 26. -/
theorem digStep26 : keccak256 [203, 201, 72, 19, 128, 151, 141, 41, 235, 197, 176, 168, 212, 72, 28, 210, 239, 101, 78, 232, 0, 144, 122, 219, 61, 56, 220, 47, 217, 38, 95, 171] = [36, 229, 58, 247, 30, 240, 107, 172, 183, 109, 50, 148, 193, 18, 35, 145, 30, 157, 23, 127, 240, 155, 112, 9, 254, 188, 72, 74, 221, 11, 235, 116] := by decide

/-- digest chain step 27. -/
theorem digStep27 : keccak256 [36, 229, 58, 247, 30, 240, 107, 172, 183, 109, 50, 148, 193, 18, 35, 145, 30, 157, 23, 127, 240, 155, 112, 9, 254, 188, 72, 74, 221, 11, 235, 116] = [219, 212, 78, 22, 16, 130, 37, 118, 109, 172, 62, 95, 231, 172, 190, 157, 245, 25, 187, 186, 151, 56, 14, 94, 148, 55, 169, 6, 88, 242, 19, 147] := by decide

/-- digest chain step 28. -/
theorem digStep28 : keccak256 [219, 212, 78, 22, 16, 130, 37, 118, 109, 172, 62, 95, 231, 172, 190, 157, 245, 25, 187, 186, 151, 56, 14, 94, 148, 55, 169, 6, 88, 242, 19, 147] = [198, 244, 52, 134, 60, 121, 1, 59, 178, 194, 2, 51, 30, 4, 188, 206, 162, 37, 28, 31, 246, 241, 145, 220, 42, 250, 35, 230, 246, 210, 142, 78] := by decide

/-- digest chain step 29. -/
theorem digStep29 : keccak256 [198, 244, 52, 134, 60, 121, 1, 59, 178, 194, 2, 51, 30, 4, 188, 206, 162, 37, 28, 31, 246, 241, 145, 220, 42, 250, 35, 230, 246, 210, 142, 78] = [52, 144, 238, 179, 154, 115, 60, 14, 128, 98, 216, 127, 152, 26, 230, 90, 143, 204, 242, 92, 68, 143, 68, 85, 210, 125, 179, 145, 83, 81, 176, 102] := by decide

/-- digest chain step 30. -/
theorem digStep30 : keccak256 [52, 144, 238, 179, 154, 115, 60, 14, 128, 98, 216, 127, 152, 26, 230, 90, 143, 204, 242, 92, 68, 143, 68, 85, 210, 125, 179, 145, 83, 81, 176, 102] = [48, 184, 152, 48, 255, 122, 222, 53, 88, 165, 54, 26, 36, 134, 145, 48, 206, 31, 204, 233, 114, 17, 96, 41, 98, 227, 72, 89, 82, 93, 172, 79] := by decide

/-- digest chain step 31. -/
theorem digStep31 : keccak256 [48, 184, 152, 48, 255, 122, 222, 53, 88, 165, 54, 26, 36, 134, 145, 48, 206, 31, 204, 233, 114, 17, 96, 41, 98, 227, 72, 89, 82, 93, 172, 79] = [41, 186, 226, 27, 87, 157, 8, 10, 117, 193, 105, 77, 166, 40, 208, 236, 253, 131, 239, 201, 200, 70, 135, 4, 244, 16, 48, 0, 98, 246, 76, 169] := by decide

/-- digest chain step 32. -/
theorem digStep32 : keccak256 [41, 186, 226, 27, 87, 157, 8, 10, 117, 193, 105, 77, 166, 40, 208, 236, 253, 131, 239, 201, 200, 70, 135, 4, 244, 16, 48, 0, 98, 246, 76, 169] = [227, 38, 73, 157, 224, 71, 110, 113, 153, 21, 221, 28, 102, 30, 244, 85, 7, 35, 212, 174, 233, 238, 154, 242, 36, 237, 210, 8, 121, 15, 206, 68] := by decide

/-- digest chain step 33. -/
theorem digStep33 : keccak256 [227, 38, 73, 157, 224, 71, 110, 113, 153, 21, 221, 28, 102, 30, 244, 85, 7, 35, 212, 174, 233, 238, 154, 242, 36, 237, 210, 8, 121, 15, 206, 68] = [140, 69, 32, 139, 139, 170, 111, 71, 56, 33, 65, 89, 87, 8, 140, 11, 126, 114, 164, 101, 244, 96, 176, 158, 206, 45, 39, 10, 238, 47, 24, 65] := by decide

/-- digest chain step 34. -/
theorem digStep34 : keccak256 [140, 69, 32, 139, 139, 170, 111, 71, 56, 33, 65, 89, 87, 8, 140, 11, 126, 114, 164, 101, 244, 96, 176, 158, 206, 45, 39, 10, 238, 47, 24, 65] = [254, 42, 212, 84, 244, 81, 52, 143, 38, 206, 44, 199, 231, 145, 74, 239, 62, 185, 110, 143, 137, 164, 97, 154, 29, 199, 209, 31, 132, 1, 195, 82] := by decide

/-- digest chain step 35. -/
theorem digStep35 : keccak256 [254, 42, 212, 84, 244, 81, 52, 143, 38, 206, 44, 199, 231, 145, 74, 239, 62, 185, 110, 143, 137, 164, 97, 154, 29, 199, 209, 31, 132, 1, 195, 82] = [9, 41, 219, 54, 142, 242, 175, 45, 41, 188, 163, 136, 69, 50, 91, 11, 122, 130, 10, 72, 137, 228, 75, 88, 41, 187, 225, 237, 71, 253, 77, 82] := by decide

/-- digest chain step 36. -/
theorem digStep36 : keccak256 [9, 41, 219, 54, 142, 242, 175, 45, 41, 188, 163, 136, 69, 50, 91, 11, 122, 130, 10, 72, 137, 228, 75, 88, 41, 187, 225, 237, 71, 253, 77, 82] = [22, 83, 29, 66, 75, 12, 186, 249, 171, 191, 45, 42, 205, 230, 152, 70, 46, 164, 85, 91, 243, 44, 207, 27, 189, 38, 105, 126, 144, 80, 102, 246] := by decide

/-- digest chain step 37. -/
theorem digStep37 : keccak256 [22, 83, 29, 66, 75, 12, 186, 249, 171, 191, 45, 42, 205, 230, 152, 70, 46, 164, 85, 91, 243, 44, 207, 27, 189, 38, 105, 126, 144, 80, 102, 246] = [245, 195, 13, 36, 127, 4, 95, 246, 208, 92, 240, 221, 10, 73, 201, 130, 62, 122, 36, 176, 215, 81, 211, 199, 33, 53, 59, 150, 242, 157, 118, 246] := by decide

/-- digest chain step 38. -/
theorem digStep38 : keccak256 [245, 195, 13, 36, 127, 4, 95, 246, 208, 92, 240, 221, 10, 73, 201, 130, 62, 122, 36, 176, 215, 81, 211, 199, 33, 53, 59, 150, 242, 157, 118, 246] = [110, 183, 163, 97, 64, 86, 194, 48, 198, 241, 113, 55, 15, 221, 157, 16, 72, 187, 0, 178, 205, 209, 178, 114, 29, 17, 189, 218, 80, 35, 244, 134] := by decide

/-- digest chain step 39. -/
theorem digStep39 : keccak256 [110, 183, 163, 97, 64, 86, 194, 48, 198, 241, 113, 55, 15, 221, 157, 16, 72, 187, 0, 178, 205, 209, 178, 114, 29, 17, 189, 218, 80, 35, 244, 134] = [14, 233, 196, 98, 22, 66, 162, 114, 247, 16, 144, 135, 7, 85, 116, 152, 210, 90, 111, 221, 81, 134, 109, 165, 217, 240, 210, 5, 53, 90, 97, 137] := by decide

/-- digest chain step 40. -/
theorem digStep40 : keccak256 [14, 233, 196, 98, 22, 66, 162, 114, 247, 16, 144, 135, 7, 85, 116, 152, 210, 90, 111, 221, 81, 134, 109, 165, 217, 240, 210, 5, 53, 90, 97, 137] = [120, 202, 28, 177, 199, 246, 198, 137, 77, 28, 249, 79, 50, 123, 135, 99, 190, 23, 49, 81, 182, 176, 111, 153, 223, 198, 169, 68, 187, 90, 114, 240] := by decide

/-- digest chain step 41. -/
theorem digStep41 : keccak256 [120, 202, 28, 177, 199, 246, 198, 137, 77, 28, 249, 79, 50, 123, 135, 99, 190, 23, 49, 81, 182, 176, 111, 153, 223, 198, 169, 68, 187, 90, 114, 240] = [93, 36, 208, 177, 179, 4, 208, 83, 17, 206, 15, 39, 75, 13, 147, 116, 106, 72, 96, 237, 92, 221, 141, 67, 72, 222, 85, 126, 167, 165, 238, 122] := by decide

/-- digest chain step 42. -/
theorem digStep42 : keccak256 [93, 36, 208, 177, 179, 4, 208, 83, 17, 206, 15, 39, 75, 13, 147, 116, 106, 72, 96, 237, 92, 221, 141, 67, 72, 222, 85, 126, 167, 165, 238, 122] = [119, 66, 61, 171, 209, 163, 205, 220, 134, 145, 67, 143, 197, 137, 30, 63, 212, 154, 192, 243, 226, 26, 175, 36, 151, 145, 191, 222, 19, 3, 210, 243] := by decide

/-- digest chain step 43. -/
theorem digStep43 : keccak256 [119, 66, 61, 171, 209, 163, 205, 220, 134, 145, 67, 143, 197, 137, 30, 63, 212, 154, 192, 243, 226, 26, 175, 36, 151, 145, 191, 222, 19, 3, 210, 243] = [6, 66, 232, 128, 10, 72, 204, 4, 192, 22, 130, 50, 198, 245, 66, 57, 101, 151, 166, 124, 243, 149, 173, 98, 45, 148, 126, 152, 187, 104, 105, 122] := by decide

/-- digest chain step 44. -/
theorem digStep44 : keccak256 [6, 66, 232, 128, 10, 72, 204, 4, 192, 22, 130, 50, 198, 245, 66, 57, 101, 151, 166, 124, 243, 149, 173, 98, 45, 148, 126, 152, 187, 104, 105, 122] = [193, 231, 211, 203, 188, 76, 53, 183, 73, 6, 71, 216, 64, 46, 86, 211, 52, 51, 105, 67, 189, 169, 31, 226, 211, 76, 169, 114, 124, 14, 61, 245] := by decide

/-- digest chain step 45. -/
theorem digStep45 : keccak256 [193, 231, 211, 203, 188, 76, 53, 183, 73, 6, 71, 216, 64, 46, 86, 211, 52, 51, 105, 67, 189, 169, 31, 226, 211, 76, 169, 114, 124, 14, 61, 245] = [141, 111, 177, 115, 3, 53, 32, 79, 56, 248, 94, 64, 138, 200, 97, 231, 111, 36, 52, 154, 182, 238, 4, 105, 194, 46, 25, 53, 11, 178, 79, 225] := by decide

/-- digest chain step 46. -/
theorem digStep46 : keccak256 [141, 111, 177, 115, 3, 53, 32, 79, 56, 248, 94, 64, 138, 200, 97, 231, 111, 36, 52, 154, 182, 238, 4, 105, 194, 46, 25, 53, 11, 178, 79, 225] = [103, 208, 250, 245, 240, 219, 50, 161, 182, 14, 19, 220, 73, 20, 36, 107, 158, 218, 199, 153, 15, 180, 153, 11, 25, 170, 134, 129, 85, 134, 68, 26] := by decide

/-- digest chain step 47. -/
theorem digStep47 : keccak256 [103, 208, 250, 245, 240, 219, 50, 161, 182, 14, 19, 220, 73, 20, 36, 107, 158, 218, 199, 153, 15, 180, 153, 11, 25, 170, 134, 129, 85, 134, 68, 26] = [38, 5, 185, 185, 9, 222, 209, 176, 73, 113, 234, 233, 121, 2, 124, 78, 13, 229, 127, 59, 106, 96, 213, 237, 88, 171, 166, 25, 195, 71, 73, 206] := by decide

/-- digest chain step 48. -/
theorem digStep48 : keccak256 [38, 5, 185, 185, 9, 222, 209, 176, 73, 113, 234, 233, 121, 2, 124, 78, 13, 229, 127, 59, 106, 96, 213, 237, 88, 171, 166, 25, 195, 71, 73, 206] = [210, 118, 137, 11, 44, 32, 93, 184, 95, 0, 13, 31, 81, 17, 237, 143, 23, 126, 39, 156, 174, 62, 82, 134, 39, 128, 240, 78, 132, 98, 40, 208] := by decide

/-- digest chain step 49. -/
theorem digStep49 : keccak256 [210, 118, 137, 11, 44, 32, 93, 184, 95, 0, 13, 31, 81, 17, 237, 143, 23, 126, 39, 156, 174, 62, 82, 134, 39, 128, 240, 78, 132, 98, 40, 208] = [42, 197, 144, 95, 148, 80, 162, 30, 246, 144, 94, 213, 149, 26, 145, 179, 115, 14, 58, 46, 45, 98, 181, 11, 222, 184, 16, 1, 93, 80, 55, 107] := by decide

/-- digest chain step 50. -/
theorem digStep50 : keccak256 [42, 197, 144, 95, 148, 80, 162, 30, 246, 144, 94, 213, 149, 26, 145, 179, 115, 14, 58, 46, 45, 98, 181, 11, 222, 184, 16, 1, 93, 80, 55, 107] = [122, 54, 104, 57, 240, 41, 28, 165, 77, 166, 116, 172, 63, 14, 30, 154, 168, 182, 135, 186, 83, 57, 38, 203, 64, 38, 128, 57, 229, 123, 150, 122] := by decide

/-- digest chain step 51. -/
theorem digStep51 : keccak256 [122, 54, 104, 57, 240, 41, 28, 165, 77, 166, 116, 172, 63, 14, 30, 154, 168, 182, 135, 186, 83, 57, 38, 203, 64, 38, 128, 57, 229, 123, 150, 122] = [103, 171, 15, 52, 102, 152, 156, 61, 187, 226, 9, 195, 126, 194, 114, 186, 131, 152, 75, 166, 228, 69, 190, 109, 71, 43, 99, 227, 202, 114, 112, 227] := by decide

/-- digest chain step 52. -/
theorem digStep52 : keccak256 [103, 171, 15, 52, 102, 152, 156, 61, 187, 226, 9, 195, 126, 194, 114, 186, 131, 152, 75, 166, 228, 69, 190, 109, 71, 43, 99, 227, 202, 114, 112, 227] = [14, 120, 96, 7, 208, 206, 126, 40, 169, 14, 49, 211, 38, 56, 135, 212, 12, 85, 109, 236, 136, 252, 184, 181, 107, 201, 233, 192, 94, 204, 12, 41] := by decide

/-- digest chain step 53. -/
theorem digStep53 : keccak256 [14, 120, 96, 7, 208, 206, 126, 40, 169, 14, 49, 211, 38, 56, 135, 212, 12, 85, 109, 236, 136, 252, 184, 181, 107, 201, 233, 192, 94, 204, 12, 41] = [11, 129, 78, 217, 155, 208, 14, 202, 56, 155, 0, 34, 102, 61, 191, 221, 251, 250, 21, 227, 33, 193, 154, 188, 241, 234, 249, 85, 96, 117, 251, 104] := by decide

/-- digest chain step 54. -/
theorem digStep54 : keccak256 [11, 129, 78, 217, 155, 208, 14, 202, 56, 155, 0, 34, 102, 61, 191, 221, 251, 250, 21, 227, 33, 193, 154, 188, 241, 234, 249, 85, 96, 117, 251, 104] = [101, 192, 50, 27, 162, 111, 206, 228, 253, 195, 91, 73, 153, 183, 140, 235, 84, 220, 175, 159, 236, 46, 59, 222, 169, 142, 159, 130, 146, 92, 9, 50] := by decide

/-- digest chain step 55. -/
theorem digStep55 : keccak256 [101, 192, 50, 27, 162, 111, 206, 228, 253, 195, 91, 73, 153, 183, 140, 235, 84, 220, 175, 159, 236, 46, 59, 222, 169, 142, 159, 130, 146, 92, 9, 50] = [171, 45, 42, 146, 150, 1, 249, 195, 82, 14, 11, 20, 170, 166, 186, 159, 30, 121, 130, 26, 91, 118, 137, 25, 103, 10, 78, 169, 112, 114, 43, 244] := by decide

/-- digest chain step 56. -/
theorem digStep56 : keccak256 [171, 45, 42, 146, 150, 1, 249, 195, 82, 14, 11, 20, 170, 166, 186, 159, 30, 121, 130, 26, 91, 118, 137, 25, 103, 10, 78, 169, 112, 114, 43, 244] = [205, 210, 224, 116, 77, 74, 241, 168, 25, 24, 222, 105, 236, 18, 18, 138, 88, 113, 54, 115, 3, 255, 131, 237, 118, 71, 113, 203, 189, 246, 80, 35] := by decide

/-- digest chain step 57. -/
theorem digStep57 : keccak256 [205, 210, 224, 116, 77, 74, 241, 168, 25, 24, 222, 105, 236, 18, 18, 138, 88, 113, 54, 115, 3, 255, 131, 237, 118, 71, 113, 203, 189, 246, 80, 35] = [116, 82, 125, 12, 8, 104, 242, 236, 98, 128, 134, 184, 116, 250, 102, 167, 52, 125, 61, 59, 145, 141, 46, 7, 165, 243, 62, 16, 103, 232, 172, 88] := by decide

/-- digest chain step 58. -/
theorem digStep58 : keccak256 [116, 82, 125, 12, 8, 104, 242, 236, 98, 128, 134, 184, 116, 250, 102, 167, 52, 125, 61, 59, 145, 141, 46, 7, 165, 243, 62, 16, 103, 232, 172, 88] = [28, 107, 246, 172, 3, 20, 202, 234, 210, 62, 53, 123, 252, 187, 170, 23, 214, 112, 103, 42, 227, 164, 117, 248, 9, 52, 199, 22, 241, 10, 202, 37] := by decide

/-- digest chain step 59. -/
theorem digStep59 : keccak256 [28, 107, 246, 172, 3, 20, 202, 234, 210, 62, 53, 123, 252, 187, 170, 23, 214, 112, 103, 42, 227, 164, 117, 248, 9, 52, 199, 22, 241, 10, 202, 37] = [60, 64, 7, 226, 134, 248, 220, 126, 253, 93, 14, 235, 14, 149, 215, 170, 101, 137, 54, 29, 18, 138, 12, 204, 177, 123, 85, 76, 133, 26, 100, 50] := by decide

/-- digest chain step 60. -/
theorem digStep60 : keccak256 [60, 64, 7, 226, 134, 248, 220, 126, 253, 93, 14, 235, 14, 149, 215, 170, 101, 137, 54, 29, 18, 138, 12, 204, 177, 123, 85, 76, 133, 26, 100, 50] = [174, 70, 138, 134, 165, 167, 219, 124, 118, 58, 5, 62, 176, 154, 193, 160, 40, 9, 206, 9, 82, 88, 200, 129, 1, 238, 49, 158, 18, 176, 105, 126] := by decide

/-- digest chain step 61. -/
theorem digStep61 : keccak256 [174, 70, 138, 134, 165, 167, 219, 124, 118, 58, 5, 62, 176, 154, 193, 160, 40, 9, 206, 9, 82, 88, 200, 129, 1, 238, 49, 158, 18, 176, 105, 126] = [147, 51, 227, 208, 82, 183, 199, 127, 202, 193, 235, 54, 111, 97, 15, 111, 151, 133, 34, 66, 177, 49, 122, 135, 184, 15, 59, 188, 92, 140, 45, 29] := by decide

/-- digest chain step 62. -/
theorem digStep62 : keccak256 [147, 51, 227, 208, 82, 183, 199, 127, 202, 193, 235, 54, 111, 97, 15, 111, 151, 133, 34, 66, 177, 49, 122, 135, 184, 15, 59, 188, 92, 140, 45, 29] = [82, 236, 29, 103, 92, 245, 53, 49, 83, 246, 182, 40, 65, 71, 131, 202, 107, 127, 192, 254, 1, 148, 140, 162, 6, 218, 173, 113, 34, 150, 227, 149] := by decide

/-- digest chain step 63. -/
theorem digStep63 : keccak256 [82, 236, 29, 103, 92, 245, 53, 49, 83, 246, 182, 40, 65, 71, 131, 202, 107, 127, 192, 254, 1, 148, 140, 162, 6, 218, 173, 113, 34, 150, 227, 149] = [19, 206, 238, 179, 1, 87, 43, 73, 145, 7, 103, 80, 225, 30, 167, 231, 252, 191, 238, 69, 77, 144, 220, 23, 99, 152, 144, 4, 161, 137, 79, 147] := by decide

/-- digest chain step 64. -/
theorem digStep64 : keccak256 [19, 206, 238, 179, 1, 87, 43, 73, 145, 7, 103, 80, 225, 30, 167, 231, 252, 191, 238, 69, 77, 144, 220, 23, 99, 152, 144, 4, 161, 137, 79, 147] = [133, 5, 115, 126, 126, 148, 147, 154, 8, 216, 205, 161, 11, 111, 187, 191, 135, 155, 33, 65, 174, 126, 171, 195, 15, 205, 34, 64, 81, 53, 254, 100] := by decide

/-- digest chain step 65. -/
theorem digStep65 : keccak256 [133, 5, 115, 126, 126, 148, 147, 154, 8, 216, 205, 161, 11, 111, 187, 191, 135, 155, 33, 65, 174, 126, 171, 195, 15, 205, 34, 64, 81, 53, 254, 100] = [97, 39, 219, 122, 197, 32, 10, 33, 32, 146, 182, 110, 194, 191, 198, 54, 83, 244, 220, 138, 198, 108, 118, 0, 143, 239, 136, 82, 88, 162, 88, 181] := by decide

/-- digest chain step 66. -/
theorem digStep66 : keccak256 [97, 39, 219, 122, 197, 32, 10, 33, 32, 146, 182, 110, 194, 191, 198, 54, 83, 244, 220, 138, 198, 108, 118, 0, 143, 239, 136, 82, 88, 162, 88, 181] = [18, 105, 42, 125, 128, 143, 68, 227, 29, 98, 141, 188, 254, 163, 119, 235, 7, 63, 185, 24, 215, 190, 184, 19, 110, 164, 127, 140, 240, 148, 200, 140] := by decide

/-- digest chain step 67. -/
theorem digStep67 : keccak256 [18, 105, 42, 125, 128, 143, 68, 227, 29, 98, 141, 188, 254, 163, 119, 235, 7, 63, 185, 24, 215, 190, 184, 19, 110, 164, 127, 140, 240, 148, 200, 140] = [38, 14, 56, 75, 18, 104, 227, 163, 71, 201, 29, 105, 135, 253, 40, 15, 160, 162, 117, 84, 26, 124, 91, 227, 75, 241, 38, 175, 53, 201, 98, 224] := by decide

/-- digest chain step 68. -/
theorem digStep68 : keccak256 [38, 14, 56, 75, 18, 104, 227, 163, 71, 201, 29, 105, 135, 253, 40, 15, 160, 162, 117, 84, 26, 124, 91, 227, 75, 241, 38, 175, 53, 201, 98, 224] = [216, 140, 59, 1, 150, 109, 144, 231, 19, 174, 232, 212, 130, 206, 170, 105, 37, 49, 29, 35, 66, 225, 165, 172, 164, 252, 210, 244, 75, 109, 173, 220] := by decide

/-- digest chain step 69. -/
theorem digStep69 : keccak256 [216, 140, 59, 1, 150, 109, 144, 231, 19, 174, 232, 212, 130, 206, 170, 105, 37, 49, 29, 35, 66, 225, 165, 172, 164, 252, 210, 244, 75, 109, 173, 220] = [184, 126, 134, 138, 255, 217, 27, 7, 138, 135, 250, 117, 172, 147, 50, 166, 207, 35, 88, 125, 148, 226, 12, 50, 98, 219, 94, 145, 243, 11, 240, 75] := by decide

/-- digest chain step 70. -/
theorem digStep70 : keccak256 [184, 126, 134, 138, 255, 217, 27, 7, 138, 135, 250, 117, 172, 147, 50, 166, 207, 35, 88, 125, 148, 226, 12, 50, 98, 219, 94, 145, 243, 11, 240, 75] = [181, 186, 95, 138, 202, 209, 169, 80, 163, 187, 242, 32, 16, 85, 205, 62, 162, 112, 86, 192, 197, 63, 12, 76, 151, 243, 60, 218, 141, 191, 233, 9] := by decide

/-- digest chain step 71. -/
theorem digStep71 : keccak256 [181, 186, 95, 138, 202, 209, 169, 80, 163, 187, 242, 32, 16, 85, 205, 62, 162, 112, 86, 192, 197, 63, 12, 76, 151, 243, 60, 218, 141, 191, 233, 9] = [89, 202, 129, 75, 73, 224, 13, 123, 49, 24, 197, 58, 41, 134, 222, 209, 40, 88, 74, 205, 116, 40, 115, 94, 8, 173, 230, 102, 28, 69, 127, 117] := by decide

/-- digest chain step 72. -/
theorem digStep72 : keccak256 [89, 202, 129, 75, 73, 224, 13, 123, 49, 24, 197, 58, 41, 134, 222, 209, 40, 88, 74, 205, 116, 40, 115, 94, 8, 173, 230, 102, 28, 69, 127, 117] = [15, 196, 192, 190, 168, 19, 162, 35, 253, 81, 12, 7, 247, 187, 227, 55, 186, 221, 75, 207, 40, 100, 154, 13, 55, 137, 112, 194, 161, 91, 58, 165] := by decide

/-- digest chain step 73. -/
theorem digStep73 : keccak256 [15, 196, 192, 190, 168, 19, 162, 35, 253, 81, 12, 7, 247, 187, 227, 55, 186, 221, 75, 207, 40, 100, 154, 13, 55, 137, 112, 194, 161, 91, 58, 165] = [0, 83, 241, 234, 109, 214, 14, 122, 109, 176, 154, 0, 190, 119, 84, 159, 243, 212, 238, 55, 55, 190, 127, 180, 32, 82, 174, 19, 33, 246, 103, 195] := by decide

/-- digest chain step 74. -/
theorem digStep74 : keccak256 [0, 83, 241, 234, 109, 214, 14, 122, 109, 176, 154, 0, 190, 119, 84, 159, 243, 212, 238, 55, 55, 190, 127, 180, 32, 82, 174, 19, 33, 246, 103, 195] = [235, 147, 112, 119, 187, 16, 200, 254, 56, 113, 109, 78, 56, 237, 193, 249, 231, 177, 140, 100, 20, 254, 248, 95, 231, 233, 197, 86, 123, 170, 74, 4] := by decide

/-- digest chain step 75. -/
theorem digStep75 : keccak256 [235, 147, 112, 119, 187, 16, 200, 254, 56, 113, 109, 78, 56, 237, 193, 249, 231, 177, 140, 100, 20, 254, 248, 95, 231, 233, 197, 86, 123, 170, 74, 4] = [186, 203, 20, 192, 241, 80, 141, 130, 143, 127, 208, 72, 215, 22, 184, 4, 74, 236, 127, 15, 180, 142, 133, 231, 23, 191, 83, 45, 185, 114, 82, 7] := by decide

/-- digest chain step 76. -/
theorem digStep76 : keccak256 [186, 203, 20, 192, 241, 80, 141, 130, 143, 127, 208, 72, 215, 22, 184, 4, 74, 236, 127, 15, 180, 142, 133, 231, 23, 191, 83, 45, 185, 114, 82, 7] = [76, 160, 171, 184, 190, 183, 207, 245, 114, 160, 193, 230, 245, 142, 8, 14, 27, 178, 67, 212, 151, 163, 231, 69, 56, 68, 42, 69, 85, 173, 64, 190] := by decide

/-- digest chain step 77. -/
theorem digStep77 : keccak256 [76, 160, 171, 184, 190, 183, 207, 245, 114, 160, 193, 230, 245, 142, 8, 14, 27, 178, 67, 212, 151, 163, 231, 69, 56, 68, 42, 69, 85, 173, 64, 190] = [218, 158, 239, 212, 17, 229, 144, 215, 228, 69, 146, 204, 226, 152, 175, 135, 178, 198, 42, 163, 204, 139, 177, 55, 170, 153, 202, 141, 74, 165, 81, 181] := by decide

/-- digest chain step 78. -/
theorem digStep78 : keccak256 [218, 158, 239, 212, 17, 229, 144, 215, 228, 69, 146, 204, 226, 152, 175, 135, 178, 198, 42, 163, 204, 139, 177, 55, 170, 153, 202, 141, 74, 165, 81, 181] = [21, 61, 174, 67, 206, 247, 99, 231, 162, 252, 152, 70, 240, 154, 41, 115, 176, 173, 156, 53, 137, 76, 34, 6, 153, 188, 194, 149, 69, 1, 198, 189] := by decide

/-- digest chain step 79. -/
theorem digStep79 : keccak256 [21, 61, 174, 67, 206, 247, 99, 231, 162, 252, 152, 70, 240, 154, 41, 115, 176, 173, 156, 53, 137, 76, 34, 6, 153, 188, 194, 149, 69, 1, 198, 189] = [212, 237, 42, 9, 55, 88, 19, 180, 251, 80, 76, 122, 155, 161, 49, 16, 189, 216, 84, 154, 71, 52, 157, 184, 44, 21, 164, 52, 192, 144, 232, 123] := by decide

/-- digest chain step 80. -/
theorem digStep80 : keccak256 [212, 237, 42, 9, 55, 88, 19, 180, 251, 80, 76, 122, 155, 161, 49, 16, 189, 216, 84, 154, 71, 52, 157, 184, 44, 21, 164, 52, 192, 144, 232, 123] = [0, 99, 165, 196, 201, 193, 45, 207, 75, 174, 114, 198, 159, 58, 34, 86, 100, 70, 149, 3, 214, 29, 158, 174, 93, 149, 83, 191, 176, 6, 9, 91] := by decide

/-- digest chain step 81. -/
theorem digStep81 : keccak256 [0, 99, 165, 196, 201, 193, 45, 207, 75, 174, 114, 198, 159, 58, 34, 86, 100, 70, 149, 3, 214, 29, 158, 174, 93, 149, 83, 191, 176, 6, 9, 91] = [220, 138, 77, 53, 173, 40, 229, 157, 211, 113, 59, 69, 152, 92, 211, 183, 14, 55, 204, 194, 190, 66, 8, 111, 30, 160, 120, 254, 45, 201, 216, 45] := by decide

/-- digest chain step 82. -/
theorem digStep82 : keccak256 [220, 138, 77, 53, 173, 40, 229, 157, 211, 113, 59, 69, 152, 92, 211, 183, 14, 55, 204, 194, 190, 66, 8, 111, 30, 160, 120, 254, 45, 201, 216, 45] = [72, 107, 162, 25, 48, 143, 12, 132, 123, 34, 252, 180, 68, 159, 136, 85, 25, 37, 54, 192, 27, 128, 87, 144, 78, 129, 193, 199, 129, 79, 72, 59] := by decide

/-- digest chain step 83. -/
theorem digStep83 : keccak256 [72, 107, 162, 25, 48, 143, 12, 132, 123, 34, 252, 180, 68, 159, 136, 85, 25, 37, 54, 192, 27, 128, 87, 144, 78, 129, 193, 199, 129, 79, 72, 59] = [52, 217, 96, 65, 64, 161, 172, 159, 219, 32, 66, 133, 185, 254, 27, 48, 60, 40, 26, 242, 252, 95, 179, 98, 246, 87, 114, 130, 180, 35, 188, 243] := by decide

/-- digest chain step 84. -/
theorem digStep84 : keccak256 [52, 217, 96, 65, 64, 161, 172, 159, 219, 32, 66, 133, 185, 254, 27, 48, 60, 40, 26, 242, 252, 95, 179, 98, 246, 87, 114, 130, 180, 35, 188, 243] = [193, 104, 25, 89, 236, 75, 195, 101, 105, 17, 219, 43, 47, 86, 170, 77, 183, 9, 194, 111, 26, 10, 37, 200, 121, 40, 110, 55, 244, 55, 70, 93] := by decide

/-- digest chain step 85. -/
theorem digStep85 : keccak256 [193, 104, 25, 89, 236, 75, 195, 101, 105, 17, 219, 43, 47, 86, 170, 77, 183, 9, 194, 111, 26, 10, 37, 200, 121, 40, 110, 55, 244, 55, 70, 93] = [252, 216, 73, 243, 181, 249, 228, 54, 138, 247, 86, 25, 251, 39, 242, 227, 53, 173, 187, 155, 68, 152, 143, 23, 196, 211, 137, 250, 117, 26, 212, 122] := by decide

/-- digest chain step 86. -/
theorem digStep86 : keccak256 [252, 216, 73, 243, 181, 249, 228, 54, 138, 247, 86, 25, 251, 39, 242, 227, 53, 173, 187, 155, 68, 152, 143, 23, 196, 211, 137, 250, 117, 26, 212, 122] = [245, 247, 252, 34, 173, 100, 200, 231, 193, 224, 5, 17, 14, 19, 244, 241, 198, 177, 248, 248, 204, 89, 0, 13, 176, 227, 187, 56, 249, 149, 84, 165] := by decide

/-- digest chain step 87. -/
theorem digStep87 : keccak256 [245, 247, 252, 34, 173, 100, 200, 231, 193, 224, 5, 17, 14, 19, 244, 241, 198, 177, 248, 248, 204, 89, 0, 13, 176, 227, 187, 56, 249, 149, 84, 165] = [169, 19, 59, 138, 32, 251, 174, 70, 51, 236, 95, 130, 203, 71, 163, 138, 225, 135, 125, 18, 209, 254, 187, 35, 152, 44, 124, 128, 138, 165, 49, 117] := by decide

/-- digest chain step 88. -/
theorem digStep88 : keccak256 [169, 19, 59, 138, 32, 251, 174, 70, 51, 236, 95, 130, 203, 71, 163, 138, 225, 135, 125, 18, 209, 254, 187, 35, 152, 44, 124, 128, 138, 165, 49, 117] = [244, 130, 124, 92, 123, 97, 20, 28, 195, 27, 117, 152, 75, 179, 237, 22, 237, 87, 158, 91, 114, 227, 42, 18, 137, 182, 58, 181, 94, 175, 140, 18] := by decide

/-- digest chain step 89. -/
theorem digStep89 : keccak256 [244, 130, 124, 92, 123, 97, 20, 28, 195, 27, 117, 152, 75, 179, 237, 22, 237, 87, 158, 91, 114, 227, 42, 18, 137, 182, 58, 181, 94, 175, 140, 18] = [204, 163, 97, 129, 159, 254, 254, 62, 80, 254, 52, 201, 26, 50, 44, 148, 5, 244, 229, 161, 104, 193, 252, 10, 10, 24, 131, 153, 62, 50, 201, 244] := by decide

/-- digest chain step 90. -/
theorem digStep90 : keccak256 [204, 163, 97, 129, 159, 254, 254, 62, 80, 254, 52, 201, 26, 50, 44, 148, 5, 244, 229, 161, 104, 193, 252, 10, 10, 24, 131, 153, 62, 50, 201, 244] = [102, 86, 8, 136, 66, 191, 201, 227, 37, 165, 50, 120, 77, 51, 98, 206, 207, 168, 111, 156, 123, 32, 138, 107, 73, 152, 54, 235, 228, 143, 241, 87] := by decide

/-- digest chain step 91. -/
theorem digStep91 : keccak256 [102, 86, 8, 136, 66, 191, 201, 227, 37, 165, 50, 120, 77, 51, 98, 206, 207, 168, 111, 156, 123, 32, 138, 107, 73, 152, 54, 235, 228, 143, 241, 87] = [0, 18, 156, 124, 208, 14, 66, 237, 5, 163, 125, 188, 235, 128, 212, 123, 101, 225, 215, 80, 239, 33, 72, 39, 138, 84, 114, 63, 223, 66, 196, 204] := by decide

/-- digest chain step 92. -/
theorem digStep92 : keccak256 [0, 18, 156, 124, 208, 14, 66, 237, 5, 163, 125, 188, 235, 128, 212, 123, 101, 225, 215, 80, 239, 33, 72, 39, 138, 84, 114, 63, 223, 66, 196, 204] = [168, 91, 35, 86, 49, 183, 134, 248, 92, 212, 111, 119, 104, 246, 199, 26, 224, 4, 173, 38, 122, 229, 155, 223, 146, 154, 218, 20, 155, 25, 88, 136] := by decide

/-- digest chain step 93. -/
theorem digStep93 : keccak256 [168, 91, 35, 86, 49, 183, 134, 248, 92, 212, 111, 119, 104, 246, 199, 26, 224, 4, 173, 38, 122, 229, 155, 223, 146, 154, 218, 20, 155, 25, 88, 136] = [52, 223, 101, 168, 38, 134, 190, 9, 197, 178, 55, 145, 26, 191, 35, 122, 152, 135, 193, 164, 24, 242, 121, 172, 121, 180, 70, 215, 211, 17, 245, 234] := by decide

/-- digest chain step 94. -/
theorem digStep94 : keccak256 [52, 223, 101, 168, 38, 134, 190, 9, 197, 178, 55, 145, 26, 191, 35, 122, 152, 135, 193, 164, 24, 242, 121, 172, 121, 180, 70, 215, 211, 17, 245, 234] = [129, 90, 133, 12, 57, 137, 223, 156, 166, 35, 30, 11, 221, 153, 22, 252, 14, 7, 111, 44, 108, 127, 15, 38, 10, 132, 109, 1, 121, 249, 195, 45] := by decide

/-- digest chain step 95. -/
theorem digStep95 : keccak256 [129, 90, 133, 12, 57, 137, 223, 156, 166, 35, 30, 11, 221, 153, 22, 252, 14, 7, 111, 44, 108, 127, 15, 38, 10, 132, 109, 1, 121, 249, 195, 45] = [80, 251, 9, 64, 132, 138, 103, 174, 232, 61, 52, 132, 33, 250, 221, 121, 174, 252, 122, 42, 218, 190, 236, 110, 100, 144, 78, 190, 27, 246, 62, 125] := by decide

/-- digest chain step 96. -/
theorem digStep96 : keccak256 [80, 251, 9, 64, 132, 138, 103, 174, 232, 61, 52, 132, 33, 250, 221, 121, 174, 252, 122, 42, 218, 190, 236, 110, 100, 144, 78, 190, 27, 246, 62, 125] = [186, 182, 58, 22, 39, 53, 153, 248, 182, 104, 149, 70, 30, 98, 161, 159, 240, 209, 3, 105, 59, 231, 113, 217, 62, 54, 145, 187, 168, 156, 221, 141] := by decide

/-- digest chain step 97. -/
theorem digStep97 : keccak256 [186, 182, 58, 22, 39, 53, 153, 248, 182, 104, 149, 70, 30, 98, 161, 159, 240, 209, 3, 105, 59, 231, 113, 217, 62, 54, 145, 187, 168, 156, 221, 141] = [105, 49, 160, 145, 117, 110, 11, 199, 9, 235, 236, 255, 251, 165, 3, 134, 52, 197, 179, 213, 208, 197, 135, 109, 215, 42, 172, 103, 69, 45, 184, 162] := by decide

/-- digest chain step 98. -/
theorem digStep98 : keccak256 [105, 49, 160, 145, 117, 110, 11, 199, 9, 235, 236, 255, 251, 165, 3, 134, 52, 197, 179, 213, 208, 197, 135, 109, 215, 42, 172, 103, 69, 45, 184, 162] = [85, 85, 155, 139, 183, 157, 184, 128, 156, 70, 238, 98, 127, 27, 92, 225, 216, 230, 216, 155, 249, 74, 153, 135, 161, 64, 119, 89, 209, 186, 137, 99] := by decide

/-- digest chain step 99. -/
theorem digStep99 : keccak256 [85, 85, 155, 139, 183, 157, 184, 128, 156, 70, 238, 98, 127, 27, 92, 225, 216, 230, 216, 155, 249, 74, 153, 135, 161, 64, 119, 89, 209, 186, 137, 99] = [169, 161, 161, 27, 41, 121, 1, 140, 177, 85, 145, 77, 9, 241, 223, 25, 183, 255, 236, 36, 30, 139, 36, 135, 182, 246, 39, 42, 86, 164, 74, 10] := by decide

/-- digest chain step 100. -/
theorem digStep100 : keccak256 [169, 161, 161, 27, 41, 121, 1, 140, 177, 85, 145, 77, 9, 241, 223, 25, 183, 255, 236, 36, 30, 139, 36, 135, 182, 246, 39, 42, 86, 164, 74, 10] = [248, 50, 147, 64, 14, 123, 204, 234, 75, 184, 109, 203, 13, 92, 165, 127, 162, 70, 110, 19, 165, 114, 215, 211, 83, 28, 111, 164, 145, 203, 15, 27] := by decide

/-- digest chain step 101. -/
theorem digStep101 : keccak256 [248, 50, 147, 64, 14, 123, 204, 234, 75, 184, 109, 203, 13, 92, 165, 127, 162, 70, 110, 19, 165, 114, 215, 211, 83, 28, 111, 164, 145, 203, 15, 27] = [183, 203, 87, 66, 182, 188, 83, 57, 98, 77, 53, 104, 163, 60, 33, 243, 27, 135, 127, 131, 150, 151, 37, 130, 2, 141, 169, 153, 171, 242, 73, 242] := by decide

/-- digest chain step 102. -/
theorem digStep102 : keccak256 [183, 203, 87, 66, 182, 188, 83, 57, 98, 77, 53, 104, 163, 60, 33, 243, 27, 135, 127, 131, 150, 151, 37, 130, 2, 141, 169, 153, 171, 242, 73, 242] = [245, 110, 251, 64, 15, 133, 0, 181, 197, 191, 129, 28, 101, 200, 108, 126, 210, 233, 101, 241, 79, 26, 105, 188, 164, 54, 192, 198, 11, 121, 244, 101] := by decide

/-- digest chain step 103. -/
theorem digStep103 : keccak256 [245, 110, 251, 64, 15, 133, 0, 181, 197, 191, 129, 28, 101, 200, 108, 126, 210, 233, 101, 241, 79, 26, 105, 188, 164, 54, 192, 198, 11, 121, 244, 101] = [215, 196, 66, 121, 152, 217, 196, 64, 248, 73, 220, 215, 91, 113, 87, 153, 110, 170, 209, 185, 161, 213, 140, 194, 68, 25, 49, 48, 14, 38, 235, 34] := by decide

/-- digest chain step 104. -/
theorem digStep104 : keccak256 [215, 196, 66, 121, 152, 217, 196, 64, 248, 73, 220, 215, 91, 113, 87, 153, 110, 170, 209, 185, 161, 213, 140, 194, 68, 25, 49, 48, 14, 38, 235, 34] = [202, 94, 209, 138, 213, 62, 51, 253, 195, 174, 140, 243, 83, 255, 63, 109, 211, 21, 246, 0, 96, 68, 43, 116, 246, 182, 20, 178, 78, 189, 76, 195] := by decide

/-- digest chain step 105. -/
theorem digStep105 : keccak256 [202, 94, 209, 138, 213, 62, 51, 253, 195, 174, 140, 243, 83, 255, 63, 109, 211, 21, 246, 0, 96, 68, 43, 116, 246, 182, 20, 178, 78, 189, 76, 195] = [154, 211, 233, 55, 108, 151, 177, 148, 160, 251, 244, 62, 34, 163, 97, 105, 129, 215, 119, 54, 92, 118, 94, 173, 9, 161, 208, 51, 253, 245, 54, 183] := by decide

/-- digest chain step 106. -/
theorem digStep106 : keccak256 [154, 211, 233, 55, 108, 151, 177, 148, 160, 251, 244, 62, 34, 163, 97, 105, 129, 215, 119, 54, 92, 118, 94, 173, 9, 161, 208, 51, 253, 245, 54, 183] = [198, 218, 239, 245, 118, 154, 6, 178, 111, 227, 184, 254, 243, 13, 240, 123, 19, 135, 55, 58, 120, 20, 206, 243, 100, 254, 29, 96, 89, 234, 245, 74] := by decide

/-- digest chain step 107. -/
theorem digStep107 : keccak256 [198, 218, 239, 245, 118, 154, 6, 178, 111, 227, 184, 254, 243, 13, 240, 123, 19, 135, 55, 58, 120, 20, 206, 243, 100, 254, 29, 96, 89, 234, 245, 74] = [194, 10, 120, 57, 131, 69, 198, 184, 207, 67, 150, 67, 218, 185, 98, 35, 191, 135, 156, 48, 38, 72, 41, 62, 175, 73, 111, 238, 92, 151, 140, 102] := by decide

/-- digest chain step 108. -/
theorem digStep108 : keccak256 [194, 10, 120, 57, 131, 69, 198, 184, 207, 67, 150, 67, 218, 185, 98, 35, 191, 135, 156, 48, 38, 72, 41, 62, 175, 73, 111, 238, 92, 151, 140, 102] = [88, 156, 166, 91, 108, 240, 233, 6, 83, 192, 109, 221, 192, 87, 220, 97, 186, 40, 57, 151, 69, 105, 5, 28, 152, 180, 62, 134, 24, 113, 110, 251] := by decide

/-- digest chain step 109. -/
theorem digStep109 : keccak256 [88, 156, 166, 91, 108, 240, 233, 6, 83, 192, 109, 221, 192, 87, 220, 97, 186, 40, 57, 151, 69, 105, 5, 28, 152, 180, 62, 134, 24, 113, 110, 251] = [131, 6, 65, 97, 241, 39, 216, 197, 159, 199, 54, 37, 149, 126, 33, 99, 13, 198, 220, 153, 229, 68, 63, 108, 227, 126, 205, 107, 242, 142, 105, 183] := by decide

/-- digest chain step 110. -/
theorem digStep110 : keccak256 [131, 6, 65, 97, 241, 39, 216, 197, 159, 199, 54, 37, 149, 126, 33, 99, 13, 198, 220, 153, 229, 68, 63, 108, 227, 126, 205, 107, 242, 142, 105, 183] = [70, 208, 186, 102, 43, 80, 16, 11, 154, 58, 245, 32, 82, 246, 137, 50, 254, 236, 29, 18, 41, 11, 32, 51, 196, 244, 145, 72, 137, 61, 139, 163] := by decide

/-- digest chain step 111. -/
theorem digStep111 : keccak256 [70, 208, 186, 102, 43, 80, 16, 11, 154, 58, 245, 32, 82, 246, 137, 50, 254, 236, 29, 18, 41, 11, 32, 51, 196, 244, 145, 72, 137, 61, 139, 163] = [24, 221, 85, 180, 168, 58, 83, 242, 238, 87, 142, 179, 230, 210, 111, 89, 72, 36, 212, 70, 112, 252, 63, 77, 232, 6, 66, 52, 77, 21, 192, 154] := by decide

/-- digest chain step 112. -/
theorem digStep112 : keccak256 [24, 221, 85, 180, 168, 58, 83, 242, 238, 87, 142, 179, 230, 210, 111, 89, 72, 36, 212, 70, 112, 252, 63, 77, 232, 6, 66, 52, 77, 21, 192, 154] = [159, 181, 181, 148, 244, 139, 197, 139, 52, 90, 185, 13, 237, 112, 89, 32, 167, 39, 75, 142, 7, 14, 238, 140, 232, 207, 144, 199, 44, 54, 4, 182] := by decide

/-- digest chain step 113. -/
theorem digStep113 : keccak256 [159, 181, 181, 148, 244, 139, 197, 139, 52, 90, 185, 13, 237, 112, 89, 32, 167, 39, 75, 142, 7, 14, 238, 140, 232, 207, 144, 199, 44, 54, 4, 182] = [25, 1, 216, 244, 242, 200, 68, 145, 40, 224, 6, 99, 151, 143, 32, 80, 242, 235, 28, 214, 172, 182, 13, 157, 9, 197, 124, 93, 70, 238, 84, 254] := by decide

/-- digest chain step 114. -/
theorem digStep114 : keccak256 [25, 1, 216, 244, 242, 200, 68, 145, 40, 224, 6, 99, 151, 143, 32, 80, 242, 235, 28, 214, 172, 182, 13, 157, 9, 197, 124, 93, 70, 238, 84, 254] = [94, 197, 103, 137, 190, 171, 36, 239, 126, 227, 47, 89, 77, 95, 197, 97, 236, 89, 223, 235, 147, 96, 109, 199, 220, 198, 254, 101, 19, 58, 125, 180] := by decide

/-- digest chain step 115. -/
theorem digStep115 : keccak256 [94, 197, 103, 137, 190, 171, 36, 239, 126, 227, 47, 89, 77, 95, 197, 97, 236, 89, 223, 235, 147, 96, 109, 199, 220, 198, 254, 101, 19, 58, 125, 180] = [1, 192, 178, 203, 228, 250, 152, 119, 163, 208, 142, 182, 124, 81, 14, 134, 48, 218, 10, 139, 237, 169, 74, 109, 146, 131, 230, 247, 13, 38, 139, 197] := by decide

/-- digest chain step 116. -/
theorem digStep116 : keccak256 [1, 192, 178, 203, 228, 250, 152, 119, 163, 208, 142, 182, 124, 81, 14, 134, 48, 218, 10, 139, 237, 169, 74, 109, 146, 131, 230, 247, 13, 38, 139, 197] = [11, 29, 133, 172, 217, 3, 26, 145, 7, 53, 14, 237, 148, 106, 37, 115, 78, 151, 71, 153, 197, 186, 124, 255, 19, 177, 90, 90, 98, 58, 37, 240] := by decide

/-- digest chain step 117. -/
theorem digStep117 : keccak256 [11, 29, 133, 172, 217, 3, 26, 145, 7, 53, 14, 237, 148, 106, 37, 115, 78, 151, 71, 153, 197, 186, 124, 255, 19, 177, 90, 90, 98, 58, 37, 240] = [32, 68, 151, 209, 211, 89, 85, 41, 5, 162, 254, 101, 95, 61, 111, 148, 146, 110, 169, 45, 18, 205, 170, 101, 86, 236, 38, 54, 47, 35, 159, 100] := by decide

/-- digest chain step 118. -/
theorem digStep118 : keccak256 [32, 68, 151, 209, 211, 89, 85, 41, 5, 162, 254, 101, 95, 61, 111, 148, 146, 110, 169, 45, 18, 205, 170, 101, 86, 236, 38, 54, 47, 35, 159, 100] = [224, 117, 247, 237, 198, 99, 26, 141, 127, 254, 51, 1, 159, 68, 252, 145, 242, 134, 35, 109, 90, 95, 144, 241, 109, 228, 121, 27, 114, 162, 165, 240] := by decide

/-- digest chain step 119. -/
theorem digStep119 : keccak256 [224, 117, 247, 237, 198, 99, 26, 141, 127, 254, 51, 1, 159, 68, 252, 145, 242, 134, 35, 109, 90, 95, 144, 241, 109, 228, 121, 27, 114, 162, 165, 240] = [36, 63, 70, 227, 83, 53, 66, 86, 171, 143, 224, 202, 78, 146, 48, 223, 195, 48, 188, 22, 62, 96, 45, 254, 175, 48, 124, 29, 26, 114, 100, 185] := by decide

/-- digest chain step 120. -/
theorem digStep120 : keccak256 [36, 63, 70, 227, 83, 53, 66, 86, 171, 143, 224, 202, 78, 146, 48, 223, 195, 48, 188, 22, 62, 96, 45, 254, 175, 48, 124, 29, 26, 114, 100, 185] = [212, 72, 174, 94, 9, 98, 95, 161, 252, 253, 115, 47, 201, 205, 143, 6, 228, 195, 59, 129, 240, 169, 36, 12, 131, 218, 86, 244, 30, 158, 204, 235] := by decide

/-- digest chain step 121. -/
theorem digStep121 : keccak256 [212, 72, 174, 94, 9, 98, 95, 161, 252, 253, 115, 47, 201, 205, 143, 6, 228, 195, 59, 129, 240, 169, 36, 12, 131, 218, 86, 244, 30, 158, 204, 235] = [47, 49, 46, 239, 105, 163, 61, 159, 167, 83, 192, 136, 64, 39, 86, 146, 160, 52, 50, 179, 230, 218, 103, 249, 197, 155, 159, 159, 73, 113, 205, 86] := by decide

/-- digest chain step 122. -/
theorem digStep122 : keccak256 [47, 49, 46, 239, 105, 163, 61, 159, 167, 83, 192, 136, 64, 39, 86, 146, 160, 52, 50, 179, 230, 218, 103, 249, 197, 155, 159, 159, 73, 113, 205, 86] = [95, 51, 57, 150, 175, 35, 27, 213, 162, 147, 19, 125, 169, 24, 1, 225, 145, 166, 242, 78, 181, 50, 173, 26, 126, 110, 154, 42, 208, 239, 188, 0] := by decide

/-- digest chain step 123. -/
theorem digStep123 : keccak256 [95, 51, 57, 150, 175, 35, 27, 213, 162, 147, 19, 125, 169, 24, 1, 225, 145, 166, 242, 78, 181, 50, 173, 26, 126, 110, 154, 42, 208, 239, 188, 0] = [168, 247, 113, 224, 56, 58, 131, 45, 200, 226, 234, 168, 239, 171, 218, 48, 9, 71, 172, 175, 6, 132, 250, 189, 223, 139, 74, 187, 10, 189, 138, 98] := by decide

/-- digest chain step 124. -/
theorem digStep124 : keccak256 [168, 247, 113, 224, 56, 58, 131, 45, 200, 226, 234, 168, 239, 171, 218, 48, 9, 71, 172, 175, 6, 132, 250, 189, 223, 139, 74, 187, 10, 189, 138, 98] = [159, 240, 179, 215, 164, 100, 53, 150, 246, 81, 183, 12, 25, 99, 204, 79, 166, 196, 96, 24, 215, 143, 5, 203, 44, 95, 24, 126, 37, 223, 131, 169] := by decide

/-- digest chain step 125. -/
theorem digStep125 : keccak256 [159, 240, 179, 215, 164, 100, 53, 150, 246, 81, 183, 12, 25, 99, 204, 79, 166, 196, 96, 24, 215, 143, 5, 203, 44, 95, 24, 126, 37, 223, 131, 169] = [156, 55, 59, 112, 72, 56, 50, 86, 72, 39, 55, 52, 220, 223, 150, 45, 124, 21, 111, 67, 31, 112, 56, 11, 164, 133, 88, 50, 196, 162, 56, 184] := by decide

/-- digest chain step 126. -/
theorem digStep126 : keccak256 [156, 55, 59, 112, 72, 56, 50, 86, 72, 39, 55, 52, 220, 223, 150, 45, 124, 21, 111, 67, 31, 112, 56, 11, 164, 133, 88, 50, 196, 162, 56, 184] = [234, 42, 250, 2, 96, 75, 138, 254, 235, 87, 15, 72, 160, 233, 122, 94, 107, 254, 150, 19, 57, 75, 154, 107, 0, 38, 236, 214, 206, 200, 195, 58] := by decide

/-- digest chain step 127. -/
theorem digStep127 : keccak256 [234, 42, 250, 2, 96, 75, 138, 254, 235, 87, 15, 72, 160, 233, 122, 94, 107, 254, 150, 19, 57, 75, 154, 107, 0, 38, 236, 214, 206, 200, 195, 58] = [104, 137, 34, 88, 205, 142, 180, 59, 113, 202, 166, 214, 131, 126, 201, 149, 155, 253, 253, 114, 242, 92, 144, 5, 235, 175, 252, 64, 17, 248, 167, 191] := by decide

/-- digest chain step 128. -/
theorem digStep128 : keccak256 [104, 137, 34, 88, 205, 142, 180, 59, 113, 202, 166, 214, 131, 126, 201, 149, 155, 253, 253, 114, 242, 92, 144, 5, 235, 175, 252, 64, 17, 248, 167, 191] = [242, 130, 79, 86, 31, 111, 130, 227, 193, 35, 40, 54, 176, 210, 104, 250, 59, 27, 84, 137, 237, 211, 154, 95, 225, 80, 59, 252, 124, 169, 31, 73] := by decide

/-- digest chain step 129. -/
theorem digStep129 : keccak256 [242, 130, 79, 86, 31, 111, 130, 227, 193, 35, 40, 54, 176, 210, 104, 250, 59, 27, 84, 137, 237, 211, 154, 95, 225, 80, 59, 252, 124, 169, 31, 73] = [22, 78, 218, 117, 253, 162, 134, 31, 157, 129, 47, 36, 227, 122, 201, 56, 132, 79, 190, 56, 60, 36, 59, 50, 185, 246, 106, 226, 231, 107, 231, 25] := by decide

/-- digest chain step 130. -/
theorem digStep130 : keccak256 [22, 78, 218, 117, 253, 162, 134, 31, 157, 129, 47, 36, 227, 122, 201, 56, 132, 79, 190, 56, 60, 36, 59, 50, 185, 246, 106, 226, 231, 107, 231, 25] = [240, 166, 252, 67, 31, 91, 240, 221, 28, 202, 147, 184, 182, 91, 63, 114, 201, 31, 6, 147, 226, 199, 75, 233, 36, 59, 21, 171, 179, 26, 252, 192] := by decide

/-- digest chain step 131. -/
theorem digStep131 : keccak256 [240, 166, 252, 67, 31, 91, 240, 221, 28, 202, 147, 184, 182, 91, 63, 114, 201, 31, 6, 147, 226, 199, 75, 233, 36, 59, 21, 171, 179, 26, 252, 192] = [230, 141, 182, 107, 168, 145, 239, 12, 213, 39, 240, 158, 198, 255, 243, 236, 10, 38, 156, 243, 216, 145, 163, 94, 193, 60, 144, 47, 112, 51, 75, 79] := by decide

/-- digest chain step 132. -/
theorem digStep132 : keccak256 [230, 141, 182, 107, 168, 145, 239, 12, 213, 39, 240, 158, 198, 255, 243, 236, 10, 38, 156, 243, 216, 145, 163, 94, 193, 60, 144, 47, 112, 51, 75, 79] = [58, 68, 165, 177, 2, 247, 136, 58, 43, 134, 48, 163, 202, 230, 230, 219, 46, 110, 72, 59, 183, 207, 235, 52, 146, 203, 217, 23, 147, 239, 89, 142] := by decide

/-- digest chain step 133. -/
theorem digStep133 : keccak256 [58, 68, 165, 177, 2, 247, 136, 58, 43, 134, 48, 163, 202, 230, 230, 219, 46, 110, 72, 59, 183, 207, 235, 52, 146, 203, 217, 23, 147, 239, 89, 142] = [67, 147, 159, 232, 239, 120, 154, 203, 51, 203, 241, 41, 186, 138, 58, 161, 189, 97, 81, 10, 23, 128, 34, 160, 81, 119, 201, 197, 161, 197, 155, 241] := by decide

/-- digest chain step 134. -/
theorem digStep134 : keccak256 [67, 147, 159, 232, 239, 120, 154, 203, 51, 203, 241, 41, 186, 138, 58, 161, 189, 97, 81, 10, 23, 128, 34, 160, 81, 119, 201, 197, 161, 197, 155, 241] = [147, 111, 227, 182, 109, 253, 161, 188, 90, 122, 174, 36, 27, 77, 180, 66, 133, 139, 215, 32, 193, 213, 121, 192, 200, 105, 242, 115, 205, 85, 215, 116] := by decide

/-- digest chain step 135. -/
theorem digStep135 : keccak256 [147, 111, 227, 182, 109, 253, 161, 188, 90, 122, 174, 36, 27, 77, 180, 66, 133, 139, 215, 32, 193, 213, 121, 192, 200, 105, 242, 115, 205, 85, 215, 116] = [52, 144, 252, 170, 143, 250, 55, 243, 93, 198, 122, 224, 6, 232, 19, 82, 199, 16, 57, 69, 65, 123, 142, 75, 20, 42, 252, 174, 250, 52, 75, 133] := by decide

/-- digest chain step 136. -/
theorem digStep136 : keccak256 [52, 144, 252, 170, 143, 250, 55, 243, 93, 198, 122, 224, 6, 232, 19, 82, 199, 16, 57, 69, 65, 123, 142, 75, 20, 42, 252, 174, 250, 52, 75, 133] = [202, 230, 96, 150, 207, 243, 68, 202, 202, 83, 255, 224, 229, 138, 175, 235, 70, 139, 209, 116, 240, 13, 138, 188, 66, 91, 32, 153, 192, 136, 24, 116] := by decide

/-- digest chain step 137. -/
theorem digStep137 : keccak256 [202, 230, 96, 150, 207, 243, 68, 202, 202, 83, 255, 224, 229, 138, 175, 235, 70, 139, 209, 116, 240, 13, 138, 188, 66, 91, 32, 153, 192, 136, 24, 116] = [199, 208, 87, 131, 164, 27, 193, 79, 60, 154, 69, 56, 75, 109, 94, 37, 71, 197, 182, 162, 36, 200, 49, 105, 16, 178, 8, 242, 113, 138, 112, 171] := by decide

/-- digest chain step 138. -/
theorem digStep138 : keccak256 [199, 208, 87, 131, 164, 27, 193, 79, 60, 154, 69, 56, 75, 109, 94, 37, 71, 197, 182, 162, 36, 200, 49, 105, 16, 178, 8, 242, 113, 138, 112, 171] = [90, 198, 185, 186, 148, 4, 13, 86, 146, 184, 101, 182, 103, 123, 96, 239, 50, 1, 181, 194, 18, 22, 153, 247, 11, 235, 159, 155, 37, 40, 160, 38] := by decide

/-- digest chain step 139. -/
theorem digStep139 : keccak256 [90, 198, 185, 186, 148, 4, 13, 86, 146, 184, 101, 182, 103, 123, 96, 239, 50, 1, 181, 194, 18, 22, 153, 247, 11, 235, 159, 155, 37, 40, 160, 38] = [169, 2, 163, 212, 217, 236, 191, 185, 178, 199, 111, 221, 247, 128, 85, 75, 249, 60, 173, 151, 178, 68, 232, 5, 211, 173, 185, 78, 24, 22, 41, 0] := by decide

/-- digest chain step 140. -/
theorem digStep140 : keccak256 [169, 2, 163, 212, 217, 236, 191, 185, 178, 199, 111, 221, 247, 128, 85, 75, 249, 60, 173, 151, 178, 68, 232, 5, 211, 173, 185, 78, 24, 22, 41, 0] = [233, 223, 145, 255, 238, 176, 134, 164, 210, 96, 65, 194, 157, 172, 111, 202, 29, 86, 164, 208, 34, 254, 52, 179, 136, 49, 38, 115, 149, 185, 141, 39] := by decide

/-- digest chain step 141. -/
theorem digStep141 : keccak256 [233, 223, 145, 255, 238, 176, 134, 164, 210, 96, 65, 194, 157, 172, 111, 202, 29, 86, 164, 208, 34, 254, 52, 179, 136, 49, 38, 115, 149, 185, 141, 39] = [134, 38, 70, 248, 81, 217, 26, 136, 64, 173, 158, 231, 17, 241, 46, 193, 59, 62, 143, 152, 15, 245, 239, 94, 228, 60, 164, 82, 13, 87, 222, 247] := by decide

/-- digest chain step 142. -/
theorem digStep142 : keccak256 [134, 38, 70, 248, 81, 217, 26, 136, 64, 173, 158, 231, 17, 241, 46, 193, 59, 62, 143, 152, 15, 245, 239, 94, 228, 60, 164, 82, 13, 87, 222, 247] = [48, 183, 56, 28, 151, 37, 185, 219, 7, 129, 107, 175, 133, 36, 148, 58, 121, 206, 161, 53, 128, 124, 132, 204, 224, 131, 52, 133, 193, 30, 12, 46] := by decide

/-- digest chain step 143. -/
theorem digStep143 : keccak256 [48, 183, 56, 28, 151, 37, 185, 219, 7, 129, 107, 175, 133, 36, 148, 58, 121, 206, 161, 53, 128, 124, 132, 204, 224, 131, 52, 133, 193, 30, 12, 46] = [150, 175, 193, 12, 92, 237, 173, 219, 218, 153, 223, 121, 56, 115, 151, 201, 190, 116, 165, 181, 15, 58, 12, 4, 204, 182, 141, 78, 15, 58, 152, 159] := by decide

/-- digest chain step 144. -/
theorem digStep144 : keccak256 [150, 175, 193, 12, 92, 237, 173, 219, 218, 153, 223, 121, 56, 115, 151, 201, 190, 116, 165, 181, 15, 58, 12, 4, 204, 182, 141, 78, 15, 58, 152, 159] = [53, 67, 218, 128, 209, 13, 162, 81, 197, 72, 119, 111, 233, 7, 196, 239, 137, 153, 61, 98, 224, 6, 42, 229, 192, 73, 111, 203, 133, 28, 54, 97] := by decide

/-- digest chain step 145. -/
theorem digStep145 : keccak256 [53, 67, 218, 128, 209, 13, 162, 81, 197, 72, 119, 111, 233, 7, 196, 239, 137, 153, 61, 98, 224, 6, 42, 229, 192, 73, 111, 203, 133, 28, 54, 97] = [229, 20, 15, 226, 109, 139, 0, 132, 48, 252, 205, 80, 166, 142, 62, 17, 193, 22, 61, 99, 182, 216, 183, 204, 64, 188, 111, 60, 29, 11, 27, 6] := by decide

/-- digest chain step 146. -/
theorem digStep146 : keccak256 [229, 20, 15, 226, 109, 139, 0, 132, 48, 252, 205, 80, 166, 142, 62, 17, 193, 22, 61, 99, 182, 216, 183, 204, 64, 188, 111, 60, 29, 11, 27, 6] = [254, 253, 241, 135, 46, 68, 117, 232, 187, 176, 239, 111, 171, 127, 86, 27, 255, 18, 19, 20, 105, 92, 67, 59, 212, 194, 158, 193, 24, 6, 12, 150] := by decide

/-- digest chain step 147. -/
theorem digStep147 : keccak256 [254, 253, 241, 135, 46, 68, 117, 232, 187, 176, 239, 111, 171, 127, 86, 27, 255, 18, 19, 20, 105, 92, 67, 59, 212, 194, 158, 193, 24, 6, 12, 150] = [107, 184, 201, 243, 213, 123, 24, 224, 2, 223, 5, 157, 177, 230, 165, 212, 42, 213, 102, 241, 83, 241, 132, 96, 119, 79, 104, 172, 38, 80, 148, 0] := by decide

/-- digest chain step 148. -/
theorem digStep148 : keccak256 [107, 184, 201, 243, 213, 123, 24, 224, 2, 223, 5, 157, 177, 230, 165, 212, 42, 213, 102, 241, 83, 241, 132, 96, 119, 79, 104, 172, 38, 80, 148, 0] = [84, 21, 18, 45, 80, 178, 111, 79, 171, 87, 132, 0, 76, 86, 207, 3, 241, 40, 248, 37, 173, 34, 54, 244, 179, 213, 31, 116, 115, 123, 217, 115] := by decide

/-- digest chain step 149. -/
theorem digStep149 : keccak256 [84, 21, 18, 45, 80, 178, 111, 79, 171, 87, 132, 0, 76, 86, 207, 3, 241, 40, 248, 37, 173, 34, 54, 244, 179, 213, 31, 116, 115, 123, 217, 115] = [0, 225, 21, 196, 169, 142, 250, 230, 163, 165, 236, 200, 115, 176, 206, 246, 60, 205, 91, 81, 87, 16, 163, 171, 3, 236, 82, 33, 143, 120, 77, 201] := by decide

/-- digest chain step 150. -/
theorem digStep150 : keccak256 [0, 225, 21, 196, 169, 142, 250, 230, 163, 165, 236, 200, 115, 176, 206, 246, 60, 205, 91, 81, 87, 16, 163, 171, 3, 236, 82, 33, 143, 120, 77, 201] = [218, 125, 82, 84, 39, 186, 216, 123, 136, 35, 134, 87, 194, 19, 49, 36, 85, 120, 188, 118, 170, 98, 64, 183, 249, 114, 56, 37, 55, 162, 2, 171] := by decide

/-- digest chain step 151. -/
theorem digStep151 : keccak256 [218, 125, 82, 84, 39, 186, 216, 123, 136, 35, 134, 87, 194, 19, 49, 36, 85, 120, 188, 118, 170, 98, 64, 183, 249, 114, 56, 37, 55, 162, 2, 171] = [131, 51, 46, 139, 52, 80, 91, 131, 1, 2, 112, 220, 121, 82, 144, 162, 245, 21, 184, 248, 156, 22, 58, 206, 205, 244, 121, 157, 240, 76, 98, 248] := by decide

/-- digest chain step 152. -/
theorem digStep152 : keccak256 [131, 51, 46, 139, 52, 80, 91, 131, 1, 2, 112, 220, 121, 82, 144, 162, 245, 21, 184, 248, 156, 22, 58, 206, 205, 244, 121, 157, 240, 76, 98, 248] = [176, 158, 203, 96, 51, 209, 160, 101, 241, 122, 97, 6, 108, 215, 55, 208, 195, 197, 135, 59, 81, 195, 171, 10, 40, 94, 38, 147, 158, 98, 170, 24] := by decide

/-- digest chain step 153. -/
theorem digStep153 : keccak256 [176, 158, 203, 96, 51, 209, 160, 101, 241, 122, 97, 6, 108, 215, 55, 208, 195, 197, 135, 59, 81, 195, 171, 10, 40, 94, 38, 147, 158, 98, 170, 24] = [36, 230, 92, 113, 137, 56, 194, 185, 55, 55, 142, 116, 53, 51, 33, 116, 50, 151, 48, 189, 232, 90, 65, 133, 227, 120, 117, 130, 78, 180, 152, 89] := by decide

/-- digest chain step 154. -/
theorem digStep154 : keccak256 [36, 230, 92, 113, 137, 56, 194, 185, 55, 55, 142, 116, 53, 51, 33, 116, 50, 151, 48, 189, 232, 90, 65, 133, 227, 120, 117, 130, 78, 180, 152, 89] = [104, 228, 20, 48, 204, 212, 28, 197, 233, 42, 159, 154, 205, 46, 149, 92, 19, 133, 185, 245, 237, 141, 63, 19, 61, 118, 116, 41, 72, 74, 142, 186] := by decide

/-- digest chain step 155. -/
theorem digStep155 : keccak256 [104, 228, 20, 48, 204, 212, 28, 197, 233, 42, 159, 154, 205, 46, 149, 92, 19, 133, 185, 245, 237, 141, 63, 19, 61, 118, 116, 41, 72, 74, 142, 186] = [192, 56, 254, 157, 1, 37, 171, 139, 229, 69, 69, 39, 111, 132, 18, 116, 228, 20, 197, 150, 237, 76, 158, 170, 105, 25, 96, 70, 3, 209, 255, 169] := by decide

/-- digest chain step 156. -/
theorem digStep156 : keccak256 [192, 56, 254, 157, 1, 37, 171, 139, 229, 69, 69, 39, 111, 132, 18, 116, 228, 20, 197, 150, 237, 76, 158, 170, 105, 25, 96, 70, 3, 209, 255, 169] = [35, 36, 134, 152, 97, 44, 216, 232, 50, 52, 252, 245, 219, 155, 107, 34, 95, 75, 11, 167, 141, 114, 239, 19, 234, 30, 223, 245, 240, 251, 2, 152] := by decide

/-- digest chain step 157. -/
theorem digStep157 : keccak256 [35, 36, 134, 152, 97, 44, 216, 232, 50, 52, 252, 245, 219, 155, 107, 34, 95, 75, 11, 167, 141, 114, 239, 19, 234, 30, 223, 245, 240, 251, 2, 152] = [210, 169, 250, 61, 57, 193, 186, 145, 238, 250, 102, 106, 29, 183, 28, 110, 14, 78, 59, 112, 118, 38, 176, 25, 122, 78, 89, 231, 17, 12, 240, 212] := by decide

/-- digest chain step 158. -/
theorem digStep158 : keccak256 [210, 169, 250, 61, 57, 193, 186, 145, 238, 250, 102, 106, 29, 183, 28, 110, 14, 78, 59, 112, 118, 38, 176, 25, 122, 78, 89, 231, 17, 12, 240, 212] = [194, 137, 49, 238, 125, 250, 2, 182, 40, 114, 224, 217, 55, 186, 61, 197, 198, 55, 17, 130, 115, 161, 241, 240, 196, 252, 136, 9, 5, 200, 46, 252] := by decide

/-- digest chain step 159. -/
theorem digStep159 : keccak256 [194, 137, 49, 238, 125, 250, 2, 182, 40, 114, 224, 217, 55, 186, 61, 197, 198, 55, 17, 130, 115, 161, 241, 240, 196, 252, 136, 9, 5, 200, 46, 252] = [1, 205, 57, 149, 86, 68, 94, 61, 123, 32, 29, 108, 94, 86, 165, 121, 78, 96, 190, 44, 253, 154, 70, 67, 231, 234, 215, 155, 180, 246, 15, 121] := by decide

/-- digest chain step 160. -/
theorem digStep160 : keccak256 [1, 205, 57, 149, 86, 68, 94, 61, 123, 32, 29, 108, 94, 86, 165, 121, 78, 96, 190, 44, 253, 154, 70, 67, 231, 234, 215, 155, 180, 246, 15, 121] = [172, 133, 92, 197, 141, 95, 187, 13, 255, 145, 167, 150, 131, 235, 14, 145, 76, 27, 125, 141, 10, 84, 13, 65, 104, 56, 168, 159, 131, 168, 49, 47] := by decide

/-- digest chain step 161. -/
theorem digStep161 : keccak256 [172, 133, 92, 197, 141, 95, 187, 13, 255, 145, 167, 150, 131, 235, 14, 145, 76, 27, 125, 141, 10, 84, 13, 65, 104, 56, 168, 159, 131, 168, 49, 47] = [247, 121, 138, 247, 204, 243, 107, 131, 103, 5, 132, 159, 125, 212, 3, 40, 191, 147, 70, 101, 114, 85, 180, 49, 68, 110, 199, 90, 104, 23, 24, 22] := by decide

/-- digest chain step 162. -/
theorem digStep162 : keccak256 [247, 121, 138, 247, 204, 243, 107, 131, 103, 5, 132, 159, 125, 212, 3, 40, 191, 147, 70, 101, 114, 85, 180, 49, 68, 110, 199, 90, 104, 23, 24, 22] = [229, 42, 36, 201, 45, 63, 6, 123, 245, 81, 238, 175, 152, 198, 43, 165, 37, 232, 72, 130, 215, 173, 173, 131, 95, 173, 141, 231, 41, 134, 178, 177] := by decide

/-- digest chain step 163. -/
theorem digStep163 : keccak256 [229, 42, 36, 201, 45, 63, 6, 123, 245, 81, 238, 175, 152, 198, 43, 165, 37, 232, 72, 130, 215, 173, 173, 131, 95, 173, 141, 231, 41, 134, 178, 177] = [255, 200, 104, 39, 89, 162, 191, 29, 214, 124, 135, 167, 124, 40, 84, 103, 128, 31, 28, 68, 253, 120, 250, 78, 181, 149, 122, 72, 50, 201, 215, 45] := by decide

/-- digest chain step 164. -/
theorem digStep164 : keccak256 [255, 200, 104, 39, 89, 162, 191, 29, 214, 124, 135, 167, 124, 40, 84, 103, 128, 31, 28, 68, 253, 120, 250, 78, 181, 149, 122, 72, 50, 201, 215, 45] = [20, 130, 172, 62, 126, 79, 50, 22, 39, 133, 13, 149, 161, 57, 66, 174, 166, 210, 146, 52, 2, 185, 19, 4, 104, 86, 255, 126, 138, 175, 154, 255] := by decide

/-- digest chain step 165. -/
theorem digStep165 : keccak256 [20, 130, 172, 62, 126, 79, 50, 22, 39, 133, 13, 149, 161, 57, 66, 174, 166, 210, 146, 52, 2, 185, 19, 4, 104, 86, 255, 126, 138, 175, 154, 255] = [23, 51, 43, 76, 122, 172, 42, 7, 204, 254, 149, 77, 231, 173, 34, 204, 246, 252, 180, 197, 250, 21, 193, 48, 237, 34, 164, 10, 233, 57, 143, 71] := by decide

/-- digest chain step 166. -/
theorem digStep166 : keccak256 [23, 51, 43, 76, 122, 172, 42, 7, 204, 254, 149, 77, 231, 173, 34, 204, 246, 252, 180, 197, 250, 21, 193, 48, 237, 34, 164, 10, 233, 57, 143, 71] = [212, 190, 5, 70, 1, 63, 132, 160, 209, 225, 24, 179, 117, 137, 114, 59, 88, 227, 35, 152, 50, 99, 97, 109, 27, 3, 111, 139, 63, 221, 133, 131] := by decide

/-- digest chain step 167. -/
theorem digStep167 : keccak256 [212, 190, 5, 70, 1, 63, 132, 160, 209, 225, 24, 179, 117, 137, 114, 59, 88, 227, 35, 152, 50, 99, 97, 109, 27, 3, 111, 139, 63, 221, 133, 131] = [166, 78, 199, 55, 211, 29, 221, 249, 57, 177, 132, 67, 140, 205, 211, 225, 211, 230, 103, 87, 40, 87, 205, 108, 156, 49, 160, 209, 217, 183, 176, 133] := by decide

/-- digest chain step 168. -/
theorem digStep168 : keccak256 [166, 78, 199, 55, 211, 29, 221, 249, 57, 177, 132, 67, 140, 205, 211, 225, 211, 230, 103, 87, 40, 87, 205, 108, 156, 49, 160, 209, 217, 183, 176, 133] = [138, 209, 47, 188, 116, 17, 124, 255, 71, 67, 214, 116, 83, 156, 134, 84, 140, 103, 88, 113, 10, 7, 166, 171, 227, 113, 94, 75, 83, 82, 109, 52] := by decide

/-- digest chain step 169. -/
theorem digStep169 : keccak256 [138, 209, 47, 188, 116, 17, 124, 255, 71, 67, 214, 116, 83, 156, 134, 84, 140, 103, 88, 113, 10, 7, 166, 171, 227, 113, 94, 75, 83, 82, 109, 52] = [21, 161, 100, 53, 162, 48, 11, 39, 163, 55, 86, 20, 1, 240, 102, 130, 186, 133, 1, 154, 160, 175, 97, 178, 100, 161, 23, 125, 56, 181, 193, 60] := by decide

/-- digest chain step 170. -/
theorem digStep170 : keccak256 [21, 161, 100, 53, 162, 48, 11, 39, 163, 55, 86, 20, 1, 240, 102, 130, 186, 133, 1, 154, 160, 175, 97, 178, 100, 161, 23, 125, 56, 181, 193, 60] = [34, 97, 111, 48, 110, 118, 53, 34, 147, 162, 42, 182, 238, 21, 80, 157, 155, 16, 141, 65, 54, 179, 47, 167, 249, 237, 37, 151, 147, 243, 146, 161] := by decide

/-- digest chain step 171. -/
theorem digStep171 : keccak256 [34, 97, 111, 48, 110, 118, 53, 34, 147, 162, 42, 182, 238, 21, 80, 157, 155, 16, 141, 65, 54, 179, 47, 167, 249, 237, 37, 151, 147, 243, 146, 161] = [81, 151, 39, 178, 85, 96, 202, 240, 12, 224, 211, 249, 17, 189, 67, 86, 249, 7, 22, 10, 181, 24, 109, 161, 10, 98, 156, 124, 202, 225, 133, 30] := by decide

/-- digest chain step 172. -/
theorem digStep172 : keccak256 [81, 151, 39, 178, 85, 96, 202, 240, 12, 224, 211, 249, 17, 189, 67, 86, 249, 7, 22, 10, 181, 24, 109, 161, 10, 98, 156, 124, 202, 225, 133, 30] = [207, 243, 158, 119, 146, 140, 233, 49, 1, 24, 213, 14, 41, 188, 135, 231, 247, 139, 83, 173, 81, 54, 99, 89, 170, 23, 240, 121, 2, 174, 99, 146] := by decide

/-- digest chain step 173. -/
theorem digStep173 : keccak256 [207, 243, 158, 119, 146, 140, 233, 49, 1, 24, 213, 14, 41, 188, 135, 231, 247, 139, 83, 173, 81, 54, 99, 89, 170, 23, 240, 121, 2, 174, 99, 146] = [23, 222, 173, 59, 250, 25, 104, 199, 68, 17, 128, 35, 222, 173, 119, 205, 190, 226, 44, 91, 124, 36, 20, 245, 166, 189, 248, 47, 217, 76, 243, 173] := by decide

/-- digest chain step 174. -/
theorem digStep174 : keccak256 [23, 222, 173, 59, 250, 25, 104, 199, 68, 17, 128, 35, 222, 173, 119, 205, 190, 226, 44, 91, 124, 36, 20, 245, 166, 189, 248, 47, 217, 76, 243, 173] = [43, 239, 15, 139, 34, 161, 207, 185, 1, 0, 244, 165, 82, 169, 208, 43, 119, 33, 48, 18, 61, 232, 20, 74, 0, 196, 213, 116, 151, 225, 215, 244] := by decide

/-- digest chain step 175. -/
theorem digStep175 : keccak256 [43, 239, 15, 139, 34, 161, 207, 185, 1, 0, 244, 165, 82, 169, 208, 43, 119, 33, 48, 18, 61, 232, 20, 74, 0, 196, 213, 116, 151, 225, 215, 244] = [191, 81, 136, 113, 63, 239, 144, 179, 28, 53, 36, 63, 146, 207, 164, 51, 26, 176, 118, 227, 14, 36, 179, 85, 199, 155, 1, 244, 29, 21, 42, 17] := by decide

/-- digest chain step 176. -/
theorem digStep176 : keccak256 [191, 81, 136, 113, 63, 239, 144, 179, 28, 53, 36, 63, 146, 207, 164, 51, 26, 176, 118, 227, 14, 36, 179, 85, 199, 155, 1, 244, 29, 21, 42, 17] = [59, 170, 221, 47, 217, 46, 62, 18, 251, 55, 27, 224, 87, 137, 65, 220, 10, 16, 143, 188, 160, 167, 216, 27, 136, 49, 111, 185, 77, 107, 77, 254] := by decide

/-- digest chain step 177. -/
theorem digStep177 : keccak256 [59, 170, 221, 47, 217, 46, 62, 18, 251, 55, 27, 224, 87, 137, 65, 220, 10, 16, 143, 188, 160, 167, 216, 27, 136, 49, 111, 185, 77, 107, 77, 254] = [212, 249, 85, 116, 46, 32, 162, 141, 56, 97, 27, 249, 252, 74, 71, 140, 151, 182, 115, 167, 205, 64, 208, 17, 58, 88, 161, 239, 227, 56, 217, 170] := by decide

/-- digest chain step 178. -/
theorem digStep178 : keccak256 [212, 249, 85, 116, 46, 32, 162, 141, 56, 97, 27, 249, 252, 74, 71, 140, 151, 182, 115, 167, 205, 64, 208, 17, 58, 88, 161, 239, 227, 56, 217, 170] = [60, 28, 63, 233, 165, 247, 204, 213, 74, 213, 165, 26, 34, 75, 63, 148, 119, 82, 102, 209, 156, 55, 51, 1, 126, 73, 32, 215, 57, 26, 214, 69] := by decide

/-- digest chain step 179. -/
theorem digStep179 : keccak256 [60, 28, 63, 233, 165, 247, 204, 213, 74, 213, 165, 26, 34, 75, 63, 148, 119, 82, 102, 209, 156, 55, 51, 1, 126, 73, 32, 215, 57, 26, 214, 69] = [99, 114, 223, 97, 72, 171, 238, 214, 111, 218, 84, 97, 119, 154, 150, 81, 19, 12, 108, 82, 93, 247, 51, 133, 43, 205, 146, 144, 22, 118, 138, 122] := by decide

/-- digest chain step 180. -/
theorem digStep180 : keccak256 [99, 114, 223, 97, 72, 171, 238, 214, 111, 218, 84, 97, 119, 154, 150, 81, 19, 12, 108, 82, 93, 247, 51, 133, 43, 205, 146, 144, 22, 118, 138, 122] = [109, 9, 142, 132, 143, 184, 83, 249, 90, 219, 90, 99, 100, 181, 171, 51, 199, 159, 176, 136, 119, 242, 207, 62, 14, 22, 13, 159, 203, 62, 188, 197] := by decide

/-- digest chain step 181. -/
theorem digStep181 : keccak256 [109, 9, 142, 132, 143, 184, 83, 249, 90, 219, 90, 99, 100, 181, 171, 51, 199, 159, 176, 136, 119, 242, 207, 62, 14, 22, 13, 159, 203, 62, 188, 197] = [72, 197, 252, 144, 242, 116, 49, 250, 191, 228, 150, 223, 186, 20, 187, 13, 186, 113, 20, 30, 181, 71, 42, 54, 95, 209, 48, 35, 244, 254, 98, 150] := by decide

/-- digest chain step 182. -/
theorem digStep182 : keccak256 [72, 197, 252, 144, 242, 116, 49, 250, 191, 228, 150, 223, 186, 20, 187, 13, 186, 113, 20, 30, 181, 71, 42, 54, 95, 209, 48, 35, 244, 254, 98, 150] = [187, 152, 141, 252, 12, 77, 254, 83, 153, 155, 211, 72, 64, 173, 203, 99, 253, 191, 80, 28, 205, 98, 44, 162, 221, 245, 6, 74, 216, 205, 235, 244] := by decide

/-- digest chain step 183. -/
theorem digStep183 : keccak256 [187, 152, 141, 252, 12, 77, 254, 83, 153, 155, 211, 72, 64, 173, 203, 99, 253, 191, 80, 28, 205, 98, 44, 162, 221, 245, 6, 74, 216, 205, 235, 244] = [37, 176, 104, 201, 66, 114, 76, 66, 78, 213, 133, 28, 149, 117, 194, 39, 82, 201, 189, 37, 249, 30, 191, 165, 137, 222, 61, 136, 238, 118, 39, 249] := by decide

/-- digest chain step 184. -/
theorem digStep184 : keccak256 [37, 176, 104, 201, 66, 114, 76, 66, 78, 213, 133, 28, 149, 117, 194, 39, 82, 201, 189, 37, 249, 30, 191, 165, 137, 222, 61, 136, 238, 118, 39, 249] = [237, 152, 161, 147, 30, 54, 26, 221, 33, 141, 225, 31, 247, 135, 155, 215, 17, 76, 218, 25, 194, 77, 219, 225, 91, 59, 1, 144, 206, 1, 225, 170] := by decide

/-- digest chain step 185. -/
theorem digStep185 : keccak256 [237, 152, 161, 147, 30, 54, 26, 221, 33, 141, 225, 31, 247, 135, 155, 215, 17, 76, 218, 25, 194, 77, 219, 225, 91, 59, 1, 144, 206, 1, 225, 170] = [200, 11, 90, 125, 99, 246, 196, 53, 66, 173, 97, 32, 35, 211, 255, 214, 198, 132, 206, 46, 171, 131, 113, 128, 173, 220, 180, 222, 207, 81, 133, 68] := by decide

/-- digest chain step 186. -/
theorem digStep186 : keccak256 [200, 11, 90, 125, 99, 246, 196, 53, 66, 173, 97, 32, 35, 211, 255, 214, 198, 132, 206, 46, 171, 131, 113, 128, 173, 220, 180, 222, 207, 81, 133, 68] = [226, 239, 36, 191, 71, 197, 32, 49, 24, 198, 255, 150, 101, 125, 211, 198, 253, 255, 114, 18, 213, 199, 152, 216, 38, 69, 93, 231, 123, 75, 112, 205] := by decide

/-- digest chain step 187. -/
theorem digStep187 : keccak256 [226, 239, 36, 191, 71, 197, 32, 49, 24, 198, 255, 150, 101, 125, 211, 198, 253, 255, 114, 18, 213, 199, 152, 216, 38, 69, 93, 231, 123, 75, 112, 205] = [144, 125, 168, 18, 253, 90, 131, 117, 88, 126, 72, 96, 248, 118, 145, 208, 168, 214, 29, 69, 76, 80, 125, 9, 229, 86, 46, 26, 93, 15, 204, 118] := by decide

/-- digest chain step 188. -/
theorem digStep188 : keccak256 [144, 125, 168, 18, 253, 90, 131, 117, 88, 126, 72, 96, 248, 118, 145, 208, 168, 214, 29, 69, 76, 80, 125, 9, 229, 86, 46, 26, 93, 15, 204, 118] = [196, 89, 171, 188, 98, 188, 96, 112, 202, 205, 255, 89, 126, 151, 153, 13, 229, 110, 220, 81, 204, 102, 67, 175, 176, 246, 120, 159, 239, 27, 173, 99] := by decide

/-- digest chain step 189. -/
theorem digStep189 : keccak256 [196, 89, 171, 188, 98, 188, 96, 112, 202, 205, 255, 89, 126, 151, 153, 13, 229, 110, 220, 81, 204, 102, 67, 175, 176, 246, 120, 159, 239, 27, 173, 99] = [56, 214, 31, 94, 86, 104, 85, 215, 13, 54, 239, 15, 15, 31, 239, 205, 124, 130, 155, 221, 96, 217, 94, 14, 241, 251, 91, 152, 133, 98, 128, 164] := by decide

/-- digest chain step 190. -/
theorem digStep190 : keccak256 [56, 214, 31, 94, 86, 104, 85, 215, 13, 54, 239, 15, 15, 31, 239, 205, 124, 130, 155, 221, 96, 217, 94, 14, 241, 251, 91, 152, 133, 98, 128, 164] = [19, 33, 134, 38, 102, 92, 66, 13, 58, 162, 176, 250, 73, 34, 74, 61, 206, 142, 8, 184, 181, 111, 136, 81, 189, 156, 181, 226, 92, 179, 4, 45] := by decide

/-- digest chain step 191. -/
theorem digStep191 : keccak256 [19, 33, 134, 38, 102, 92, 66, 13, 58, 162, 176, 250, 73, 34, 74, 61, 206, 142, 8, 184, 181, 111, 136, 81, 189, 156, 181, 226, 92, 179, 4, 45] = [111, 104, 95, 177, 82, 219, 162, 27, 77, 2, 66, 46, 35, 126, 36, 109, 247, 61, 125, 113, 26, 230, 215, 211, 57, 131, 186, 224, 248, 115, 227, 16] := by decide

/-- digest chain step 192. -/
theorem digStep192 : keccak256 [111, 104, 95, 177, 82, 219, 162, 27, 77, 2, 66, 46, 35, 126, 36, 109, 247, 61, 125, 113, 26, 230, 215, 211, 57, 131, 186, 224, 248, 115, 227, 16] = [90, 222, 52, 113, 158, 36, 152, 221, 231, 14, 69, 113, 196, 4, 116, 71, 90, 74, 247, 6, 163, 203, 130, 172, 24, 167, 250, 68, 194, 45, 28, 71] := by decide

/-- digest chain step 193. -/
theorem digStep193 : keccak256 [90, 222, 52, 113, 158, 36, 152, 221, 231, 14, 69, 113, 196, 4, 116, 71, 90, 74, 247, 6, 163, 203, 130, 172, 24, 167, 250, 68, 194, 45, 28, 71] = [138, 12, 61, 199, 164, 150, 173, 202, 5, 156, 185, 93, 155, 23, 56, 18, 160, 15, 60, 77, 67, 94, 11, 158, 129, 22, 224, 196, 181, 245, 106, 203] := by decide

/-- digest chain step 194. -/
theorem digStep194 : keccak256 [138, 12, 61, 199, 164, 150, 173, 202, 5, 156, 185, 93, 155, 23, 56, 18, 160, 15, 60, 77, 67, 94, 11, 158, 129, 22, 224, 196, 181, 245, 106, 203] = [25, 107, 201, 130, 82, 246, 49, 105, 237, 121, 7, 62, 224, 145, 160, 232, 237, 11, 90, 245, 16, 23, 218, 20, 57, 64, 192, 11, 219, 134, 55, 9] := by decide

/-- digest chain step 195. -/
theorem digStep195 : keccak256 [25, 107, 201, 130, 82, 246, 49, 105, 237, 121, 7, 62, 224, 145, 160, 232, 237, 11, 90, 245, 16, 23, 218, 20, 57, 64, 192, 11, 219, 134, 55, 9] = [217, 121, 191, 112, 105, 93, 147, 248, 239, 181, 82, 164, 19, 112, 25, 24, 175, 236, 158, 18, 223, 226, 19, 244, 208, 194, 124, 250, 104, 250, 214, 194] := by decide

/-- digest chain step 196. -/
theorem digStep196 : keccak256 [217, 121, 191, 112, 105, 93, 147, 248, 239, 181, 82, 164, 19, 112, 25, 24, 175, 236, 158, 18, 223, 226, 19, 244, 208, 194, 124, 250, 104, 250, 214, 194] = [184, 3, 7, 45, 2, 245, 77, 35, 122, 60, 108, 76, 193, 142, 218, 109, 206, 135, 160, 60, 104, 25, 223, 84, 228, 237, 138, 237, 109, 197, 109, 70] := by decide

/-- digest chain step 197. -/
theorem digStep197 : keccak256 [184, 3, 7, 45, 2, 245, 77, 35, 122, 60, 108, 76, 193, 142, 218, 109, 206, 135, 160, 60, 104, 25, 223, 84, 228, 237, 138, 237, 109, 197, 109, 70] = [30, 252, 218, 157, 152, 108, 221, 207, 67, 26, 244, 213, 156, 106, 119, 9, 214, 80, 136, 91, 120, 134, 203, 167, 15, 14, 124, 217, 43, 51, 28, 220] := by decide

/-- digest chain step 198. -/
theorem digStep198 : keccak256 [30, 252, 218, 157, 152, 108, 221, 207, 67, 26, 244, 213, 156, 106, 119, 9, 214, 80, 136, 91, 120, 134, 203, 167, 15, 14, 124, 217, 43, 51, 28, 220] = [211, 202, 95, 120, 89, 184, 42, 197, 11, 99, 218, 6, 212, 58, 166, 138, 107, 104, 95, 10, 96, 57, 118, 56, 187, 234, 23, 59, 63, 96, 65, 146] := by decide

/-- digest chain step 199. -/
theorem digStep199 : keccak256 [211, 202, 95, 120, 89, 184, 42, 197, 11, 99, 218, 6, 212, 58, 166, 138, 107, 104, 95, 10, 96, 57, 118, 56, 187, 234, 23, 59, 63, 96, 65, 146] = [165, 157, 57, 44, 6, 103, 49, 106, 211, 122, 6, 190, 45, 81, 170, 190, 158, 121, 189, 239, 0, 19, 188, 16, 153, 133, 100, 138, 20, 199, 228, 31] := by decide

/-- digest chain step 200. -/
theorem digStep200 : keccak256 [165, 157, 57, 44, 6, 103, 49, 106, 211, 122, 6, 190, 45, 81, 170, 190, 158, 121, 189, 239, 0, 19, 188, 16, 153, 133, 100, 138, 20, 199, 228, 31] = [172, 47, 95, 13, 33, 70, 121, 27, 57, 110, 43, 237, 108, 241, 90, 32, 188, 34, 204, 76, 140, 247, 221, 75, 53, 20, 172, 0, 20, 141, 208, 167] := by decide

/-- digest chain step 201. -/
theorem digStep201 : keccak256 [172, 47, 95, 13, 33, 70, 121, 27, 57, 110, 43, 237, 108, 241, 90, 32, 188, 34, 204, 76, 140, 247, 221, 75, 53, 20, 172, 0, 20, 141, 208, 167] = [23, 169, 147, 166, 175, 6, 141, 114, 188, 54, 240, 232, 20, 210, 159, 239, 63, 151, 215, 167, 42, 169, 99, 136, 155, 22, 168, 69, 116, 9, 134, 26] := by decide

/-- digest chain step 202. -/
theorem digStep202 : keccak256 [23, 169, 147, 166, 175, 6, 141, 114, 188, 54, 240, 232, 20, 210, 159, 239, 63, 151, 215, 167, 42, 169, 99, 136, 155, 22, 168, 69, 116, 9, 134, 26] = [111, 27, 249, 150, 134, 85, 14, 3, 150, 247, 244, 226, 223, 111, 218, 160, 144, 251, 194, 114, 200, 199, 110, 179, 42, 60, 103, 145, 222, 90, 7, 181] := by decide

/-- digest chain step 203. -/
theorem digStep203 : keccak256 [111, 27, 249, 150, 134, 85, 14, 3, 150, 247, 244, 226, 223, 111, 218, 160, 144, 251, 194, 114, 200, 199, 110, 179, 42, 60, 103, 145, 222, 90, 7, 181] = [130, 52, 215, 5, 225, 236, 220, 89, 204, 110, 212, 7, 73, 6, 157, 75, 69, 230, 61, 235, 73, 181, 183, 215, 245, 39, 171, 211, 28, 7, 43, 27] := by decide

/-- digest chain step 204. -/
theorem digStep204 : keccak256 [130, 52, 215, 5, 225, 236, 220, 89, 204, 110, 212, 7, 73, 6, 157, 75, 69, 230, 61, 235, 73, 181, 183, 215, 245, 39, 171, 211, 28, 7, 43, 27] = [111, 233, 41, 161, 253, 106, 172, 186, 92, 64, 18, 196, 93, 215, 39, 210, 200, 22, 17, 149, 103, 69, 0, 3, 145, 61, 136, 44, 185, 123, 196, 126] := by decide

/-- digest chain step 205. -/
theorem digStep205 : keccak256 [111, 233, 41, 161, 253, 106, 172, 186, 92, 64, 18, 196, 93, 215, 39, 210, 200, 22, 17, 149, 103, 69, 0, 3, 145, 61, 136, 44, 185, 123, 196, 126] = [173, 83, 113, 33, 95, 42, 186, 73, 2, 107, 46, 72, 115, 156, 17, 180, 216, 255, 187, 36, 221, 74, 110, 65, 185, 118, 56, 98, 175, 150, 120, 122] := by decide

/-- digest chain step 206. -/
theorem digStep206 : keccak256 [173, 83, 113, 33, 95, 42, 186, 73, 2, 107, 46, 72, 115, 156, 17, 180, 216, 255, 187, 36, 221, 74, 110, 65, 185, 118, 56, 98, 175, 150, 120, 122] = [208, 231, 4, 86, 108, 73, 225, 161, 30, 220, 44, 18, 139, 46, 7, 243, 109, 192, 199, 85, 70, 130, 104, 248, 254, 76, 72, 89, 185, 250, 89, 91] := by decide

/-- digest chain step 207. -/
theorem digStep207 : keccak256 [208, 231, 4, 86, 108, 73, 225, 161, 30, 220, 44, 18, 139, 46, 7, 243, 109, 192, 199, 85, 70, 130, 104, 248, 254, 76, 72, 89, 185, 250, 89, 91] = [38, 62, 17, 149, 9, 13, 0, 190, 29, 143, 179, 125, 225, 124, 207, 59, 102, 209, 128, 100, 94, 250, 13, 131, 24, 101, 207, 170, 135, 151, 118, 158] := by decide

/-- digest chain step 208. -/
theorem digStep208 : keccak256 [38, 62, 17, 149, 9, 13, 0, 190, 29, 143, 179, 125, 225, 124, 207, 59, 102, 209, 128, 100, 94, 250, 13, 131, 24, 101, 207, 170, 135, 151, 118, 158] = [230, 92, 9, 14, 235, 222, 44, 250, 127, 156, 146, 207, 117, 100, 28, 118, 131, 251, 142, 129, 244, 164, 143, 91, 122, 156, 126, 178, 106, 133, 2, 159] := by decide

/-- digest chain step 209. -/
theorem digStep209 : keccak256 [230, 92, 9, 14, 235, 222, 44, 250, 127, 156, 146, 207, 117, 100, 28, 118, 131, 251, 142, 129, 244, 164, 143, 91, 122, 156, 126, 178, 106, 133, 2, 159] = [161, 137, 113, 120, 28, 104, 85, 246, 169, 117, 41, 18, 120, 11, 185, 183, 25, 193, 74, 103, 122, 76, 99, 147, 214, 45, 110, 4, 107, 151, 162, 172] := by decide

/-- digest chain step 210. -/
theorem digStep210 : keccak256 [161, 137, 113, 120, 28, 104, 85, 246, 169, 117, 41, 18, 120, 11, 185, 183, 25, 193, 74, 103, 122, 76, 99, 147, 214, 45, 110, 4, 107, 151, 162, 172] = [246, 252, 30, 241, 188, 168, 190, 192, 85, 204, 102, 237, 236, 197, 220, 153, 3, 15, 231, 131, 17, 163, 242, 29, 140, 214, 36, 223, 79, 137, 230, 37] := by decide

/-- digest chain step 211. -/
theorem digStep211 : keccak256 [246, 252, 30, 241, 188, 168, 190, 192, 85, 204, 102, 237, 236, 197, 220, 153, 3, 15, 231, 131, 17, 163, 242, 29, 140, 214, 36, 223, 79, 137, 230, 37] = [130, 78, 78, 40, 56, 80, 21, 22, 211, 41, 101, 66, 203, 71, 165, 154, 28, 164, 50, 110, 148, 124, 156, 135, 77, 136, 220, 204, 142, 55, 185, 154] := by decide

/-- digest chain step 212. -/
theorem digStep212 : keccak256 [130, 78, 78, 40, 56, 80, 21, 22, 211, 41, 101, 66, 203, 71, 165, 154, 28, 164, 50, 110, 148, 124, 156, 135, 77, 136, 220, 204, 142, 55, 185, 154] = [60, 213, 169, 231, 53, 58, 80, 228, 84, 201, 193, 56, 27, 85, 107, 84, 56, 151, 204, 137, 21, 60, 62, 55, 73, 242, 2, 29, 130, 55, 34, 99] := by decide

/-- digest chain step 213. -/
theorem digStep213 : keccak256 [60, 213, 169, 231, 53, 58, 80, 228, 84, 201, 193, 56, 27, 85, 107, 84, 56, 151, 204, 137, 21, 60, 62, 55, 73, 242, 2, 29, 130, 55, 34, 99] = [180, 188, 237, 189, 84, 208, 201, 23, 163, 21, 204, 124, 167, 133, 227, 197, 153, 90, 187, 238, 179, 222, 179, 235, 175, 2, 199, 169, 191, 108, 200, 63] := by decide

/-- digest chain step 214. -/
theorem digStep214 : keccak256 [180, 188, 237, 189, 84, 208, 201, 23, 163, 21, 204, 124, 167, 133, 227, 197, 153, 90, 187, 238, 179, 222, 179, 235, 175, 2, 199, 169, 191, 108, 200, 63] = [31, 116, 118, 33, 17, 5, 179, 3, 156, 239, 0, 156, 81, 21, 90, 233, 53, 38, 197, 58, 116, 151, 62, 207, 206, 64, 117, 75, 61, 241, 5, 33] := by decide

/-- digest chain step 215. -/
theorem digStep215 : keccak256 [31, 116, 118, 33, 17, 5, 179, 3, 156, 239, 0, 156, 81, 21, 90, 233, 53, 38, 197, 58, 116, 151, 62, 207, 206, 64, 117, 75, 61, 241, 5, 33] = [88, 174, 251, 217, 120, 68, 12, 148, 180, 185, 251, 211, 110, 0, 230, 227, 108, 174, 172, 248, 43, 13, 160, 166, 22, 29, 52, 197, 65, 165, 166, 227] := by decide

/-- digest chain step 216. -/
theorem digStep216 : keccak256 [88, 174, 251, 217, 120, 68, 12, 148, 180, 185, 251, 211, 110, 0, 230, 227, 108, 174, 172, 248, 43, 13, 160, 166, 22, 29, 52, 197, 65, 165, 166, 227] = [194, 44, 214, 214, 27, 231, 128, 163, 60, 119, 103, 123, 198, 186, 64, 48, 123, 89, 126, 217, 129, 219, 87, 203, 72, 83, 19, 238, 194, 165, 164, 151] := by decide

/-- digest chain step 217. -/
theorem digStep217 : keccak256 [194, 44, 214, 214, 27, 231, 128, 163, 60, 119, 103, 123, 198, 186, 64, 48, 123, 89, 126, 217, 129, 219, 87, 203, 72, 83, 19, 238, 194, 165, 164, 151] = [217, 255, 196, 254, 13, 197, 248, 53, 200, 220, 220, 30, 96, 184, 240, 177, 99, 127, 50, 168, 9, 23, 83, 113, 185, 74, 5, 114, 114, 176, 116, 141] := by decide

/-- digest chain step 218. -/
theorem digStep218 : keccak256 [217, 255, 196, 254, 13, 197, 248, 53, 200, 220, 220, 30, 96, 184, 240, 177, 99, 127, 50, 168, 9, 23, 83, 113, 185, 74, 5, 114, 114, 176, 116, 141] = [246, 165, 38, 133, 65, 188, 76, 100, 173, 10, 222, 143, 85, 221, 163, 73, 38, 4, 133, 122, 113, 201, 35, 102, 42, 33, 77, 215, 233, 194, 12, 16] := by decide

/-- unfolding lemma for one step of the round-constant recursion. -/
theorem rcfStep (k : Nat) (b : List Nat) :
    roundConstantsFrom (k + 1) b
      = (bytesBE (keccak256 b) % MODULUS) :: roundConstantsFrom k (keccak256 b) := rfl

/-- the round-constant table, fully evaluated: the digest chain lemmas reduce
each keccak application, and the remaining modular reductions are closed by
kernel evaluation. -/
theorem rcEq : ROUND_CONSTANTS = rcLit := by
  simp only [ROUND_CONSTANTS, rcfStep,
    digStep0, digStep1, digStep2, digStep3, digStep4, digStep5, digStep6, digStep7, digStep8,
    digStep9, digStep10, digStep11, digStep12, digStep13, digStep14, digStep15, digStep16,
    digStep17, digStep18, digStep19, digStep20, digStep21, digStep22, digStep23, digStep24,
    digStep25, digStep26, digStep27, digStep28, digStep29, digStep30, digStep31, digStep32,
    digStep33, digStep34, digStep35, digStep36, digStep37, digStep38, digStep39, digStep40,
    digStep41, digStep42, digStep43, digStep44, digStep45, digStep46, digStep47, digStep48,
    digStep49, digStep50, digStep51, digStep52, digStep53, digStep54, digStep55, digStep56,
    digStep57, digStep58, digStep59, digStep60, digStep61, digStep62, digStep63, digStep64,
    digStep65, digStep66, digStep67, digStep68, digStep69, digStep70, digStep71, digStep72,
    digStep73, digStep74, digStep75, digStep76, digStep77, digStep78, digStep79, digStep80,
    digStep81, digStep82, digStep83, digStep84, digStep85, digStep86, digStep87, digStep88,
    digStep89, digStep90, digStep91, digStep92, digStep93, digStep94, digStep95, digStep96,
    digStep97, digStep98, digStep99, digStep100, digStep101, digStep102, digStep103,
    digStep104, digStep105, digStep106, digStep107, digStep108, digStep109, digStep110,
    digStep111, digStep112, digStep113, digStep114, digStep115, digStep116, digStep117,
    digStep118, digStep119, digStep120, digStep121, digStep122, digStep123, digStep124,
    digStep125, digStep126, digStep127, digStep128, digStep129, digStep130, digStep131,
    digStep132, digStep133, digStep134, digStep135, digStep136, digStep137, digStep138,
    digStep139, digStep140, digStep141, digStep142, digStep143, digStep144, digStep145,
    digStep146, digStep147, digStep148, digStep149, digStep150, digStep151, digStep152,
    digStep153, digStep154, digStep155, digStep156, digStep157, digStep158, digStep159,
    digStep160, digStep161, digStep162, digStep163, digStep164, digStep165, digStep166,
    digStep167, digStep168, digStep169, digStep170, digStep171, digStep172, digStep173,
    digStep174, digStep175, digStep176, digStep177, digStep178, digStep179, digStep180,
    digStep181, digStep182, digStep183, digStep184, digStep185, digStep186, digStep187,
    digStep188, digStep189, digStep190, digStep191, digStep192, digStep193, digStep194,
    digStep195, digStep196, digStep197, digStep198, digStep199, digStep200, digStep201,
    digStep202, digStep203, digStep204, digStep205, digStep206, digStep207, digStep208,
    digStep209, digStep210, digStep211, digStep212, digStep213, digStep214, digStep215,
    digStep216, digStep217, digStep218]
  decide

theorem roundConstantsFrom_length (k : Nat) (b : List Nat) :
    (roundConstantsFrom k b).length = k := by
  induction k generalizing b with
  | zero => rfl
  | succ k ih => rw [rcfStep, List.length_cons, ih]

theorem roundConstantsFrom_getD (k : Nat) (b : List Nat) (j : Nat) (hj : j < k) :
    (roundConstantsFrom k b).getD j 0
      = bytesBE (Nat.iterate keccak256 (j + 1) b) % MODULUS := by
  induction k generalizing b j with
  | zero => omega
  | succ k ih =>
    rw [rcfStep]
    cases j with
    | zero => rw [List.getD_cons_zero]; rfl
    | succ j => rw [List.getD_cons_succ, ih (keccak256 b) j (by omega)]; rfl

/-- C5: the 220-entry round-constant table has zero first and last entries,
the 218 middle entries are the successive iterated keccak-256 digests of the
seed reduced modulo the field prime, and the spot values at indices 1, 2 and
218 match the published circomlib constants. -/
theorem C5_round_constants :
    ROUND_CONSTANTS.length = 220 ∧
    ROUND_CONSTANTS.getD 0 0 = 0 ∧
    ROUND_CONSTANTS.getD 219 0 = 0 ∧
    (∀ i, 1 ≤ i → i ≤ 218 →
      ROUND_CONSTANTS.getD i 0
        = bytesBE (Nat.iterate keccak256 i (keccak256 seedBytes)) % MODULUS) ∧
    ROUND_CONSTANTS.getD 1 0
      = 7120861356467848435263064379192047478074060781135320967663101236819528304084 ∧
    ROUND_CONSTANTS.getD 2 0
      = 5024705281721889198577876690145313457398658950011302225525409148828000436681 ∧
    ROUND_CONSTANTS.getD 218 0
      = 2119542016932434047340813757208803962484943912710204325088879681995922344971 := by
  refine ⟨?_, ?_, ?_, ?_, ?_, ?_, ?_⟩
  · rw [rcEq]; rfl
  · rfl
  · rw [rcEq]; rfl
  · intro i h1 h2
    show (0 :: (roundConstantsFrom 218 (keccak256 seedBytes) ++ [0])).getD i 0 = _
    obtain ⟨j, rfl⟩ : ∃ j, i = j + 1 := ⟨i - 1, by omega⟩
    rw [List.getD_cons_succ, List.getD_eq_getElem?_getD, List.getElem?_append,
      if_pos (by rw [roundConstantsFrom_length]; omega), ← List.getD_eq_getElem?_getD,
      roundConstantsFrom_getD 218 _ j (by omega)]
  · rw [rcEq]; decide
  · rw [rcEq]; decide
  · rw [rcEq]; decide

/-- C5 witness: the iterated-digest characterization instantiated at index 2. -/
theorem C5_witness :
    ROUND_CONSTANTS.getD 2 0
      = bytesBE (Nat.iterate keccak256 2 (keccak256 seedBytes)) % MODULUS :=
  C5_round_constants.2.2.2.1 2 (by decide) (by decide)

/-- C6: the round structure (delayed swap in every round but the last, final
round touching only the right half) and the two sponge test vectors. -/
theorem C6_hash_rounds_and_vectors :
    (∀ c l r, mimcFeistel [c] l r = (l, (r + roundT5 l c) % MODULUS)) ∧
    (∀ c c2 cs l r, mimcFeistel (c :: c2 :: cs) l r
      = mimcFeistel (c2 :: cs) ((r + roundT5 l c) % MODULUS) l) ∧
    hash 1 0
      = (8792246410719720074073794355580855662772292438409936688983564419486782556587,
         7326554092124867281481480523863654579712861994895051796475958890524736238844) ∧
    hash (8792246410719720074073794355580855662772292438409936688983564419486782556587 + 2)
        7326554092124867281481480523863654579712861994895051796475958890524736238844
      = (19814528709687996974327303300007262407299502847885145507292406548098437687919,
         3888906192024793285683241274210746486868893421288515595586335488978789653213) := by
  refine ⟨fun c l r => rfl, fun c c2 cs l r => rfl, ?_, ?_⟩
  · show mimcFeistel ROUND_CONSTANTS (1 % MODULUS) (0 % MODULUS) = _
    rw [rcEq]
    decide
  · show mimcFeistel ROUND_CONSTANTS
      ((8792246410719720074073794355580855662772292438409936688983564419486782556587 + 2)
        % MODULUS)
      (7326554092124867281481480523863654579712861994895051796475958890524736238844
        % MODULUS) = _
    rw [rcEq]
    decide

end MimcHash

theorem update_tree (d : TreeVersionData) (i : Nat) (e : Hash) :
    (d.update i e).tree = d.tree.set i e := rfl

theorem update_diff (d : TreeVersionData) (i : Nat) (e : Hash) :
    (d.update i e).diff = d.diff ++ [{ leaf_index := i, element := e }] := rfl

theorem update_has_next (d : TreeVersionData) (i : Nat) (e : Hash) :
    (d.update i e).has_next = d.has_next := rfl

theorem applyUpdates_nil (d : TreeVersionData) : applyUpdates d [] = d := rfl

theorem applyUpdates_cons (d : TreeVersionData) (u : TreeUpdate) (us : List TreeUpdate) :
    applyUpdates d (u :: us) = applyUpdates (d.update u.leaf_index u.element) us := rfl

theorem update_eta (d : TreeVersionData) (u : TreeUpdate) :
    d.update u.leaf_index u.element
      = { d with tree := d.tree.set u.leaf_index u.element,
                 diff := d.diff ++ [u],
                 next_leaf := u.leaf_index + 1 } := rfl

theorem applyUpdates_diff (us : List TreeUpdate) (d : TreeVersionData) :
    (applyUpdates d us).diff = d.diff ++ us := by
  induction us generalizing d with
  | nil => simp [applyUpdates]
  | cons u us ih =>
    rw [applyUpdates_cons, ih, update_diff]
    simp

theorem applyUpdates_has_next (us : List TreeUpdate) (d : TreeVersionData) :
    (applyUpdates d us).has_next = d.has_next := by
  induction us generalizing d with
  | nil => rfl
  | cons u us ih => rw [applyUpdates_cons, ih, update_has_next]

theorem applyUpdates_set_has_next (us : List TreeUpdate) (d : TreeVersionData) (b : Bool) :
    applyUpdates { d with has_next := b } us
      = { applyUpdates d us with has_next := b } := by
  induction us generalizing d with
  | nil => rfl
  | cons u us ih =>
    rw [applyUpdates_cons, applyUpdates_cons]
    have : ({ d with has_next := b } : TreeVersionData).update u.leaf_index u.element
        = { d.update u.leaf_index u.element with has_next := b } := rfl
    rw [this, ih]

/-- draining a child whose diff is exactly the pending list replays that list,
via update, onto the parent. -/
theorem applyNextUpdateN_drain (pending : List TreeUpdate) (p c : TreeVersionData)
    (hp : p.has_next = true) (hc : c.diff = pending) :
    applyNextUpdateN pending.length (p, c)
      = (applyUpdates p pending, { c with diff := [] }) := by
  induction pending generalizing p c with
  | nil =>
    cases c
    simp_all [applyNextUpdateN, applyUpdates]
  | cons u rest ih =>
    have hstep : p.apply_next_update c
        = (p.update u.leaf_index u.element, { c with diff := rest }) := by
      simp [TreeVersionData.apply_next_update, hp, hc]
    rw [show applyNextUpdateN (u :: rest).length (p, c)
        = applyNextUpdateN rest.length (p.apply_next_update c) from rfl, hstep]
    rw [ih (p.update u.leaf_index u.element) { c with diff := rest }
      (by rw [update_has_next]; exact hp) rfl]
    rfl

/-- C1: branching a child, recording n updates on the child, and replaying
them onto the parent with n calls of apply_next_update leaves the parent's
tree (and next_leaf) identical to applying the same updates in the same order
directly to the parent's pre-branch state. -/
theorem C1_replay_equals_direct (d : TreeVersionData) (us : List TreeUpdate) :
    (applyNextUpdateN us.length
        (d.next_version.1, applyUpdates d.next_version.2 us)).1.tree
      = (applyUpdates d us).tree ∧
    (applyNextUpdateN us.length
        (d.next_version.1, applyUpdates d.next_version.2 us)).1.next_leaf
      = (applyUpdates d us).next_leaf := by
  have hdiff : (applyUpdates d.next_version.2 us).diff = us := by
    rw [applyUpdates_diff]
    rfl
  have h := applyNextUpdateN_drain us d.next_version.1
    (applyUpdates d.next_version.2 us) rfl hdiff
  rw [h]
  have hs : applyUpdates d.next_version.1 us
      = { applyUpdates d us with has_next := true } := by
    have : d.next_version.1 = { d with has_next := true } := rfl
    rw [this, applyUpdates_set_has_next]
  rw [hs]
  exact ⟨rfl, rfl⟩

theorem applyLeafSets_cons (t : PoseidonTree) (u : TreeUpdate) (us : List TreeUpdate) :
    applyLeafSets t (u :: us) = applyLeafSets (t.set u.leaf_index u.element) us := rfl

theorem applyLeafSets_concat (t : PoseidonTree) (us : List TreeUpdate) (u : TreeUpdate) :
    applyLeafSets t (us ++ [u])
      = (applyLeafSets t us).set u.leaf_index u.element := by
  simp [applyLeafSets, List.foldl_append]

theorem applyLeafSets_getD_ne (us : List TreeUpdate) (t : PoseidonTree) (i : Nat)
    (h : ∀ u ∈ us, u.leaf_index ≠ i) :
    (applyLeafSets t us).leaves.getD i 0 = t.leaves.getD i 0 := by
  induction us generalizing t with
  | nil => rfl
  | cons u us ih =>
    rw [applyLeafSets_cons, ih _ fun v hv => h v (List.mem_cons_of_mem _ hv)]
    show (t.leaves.set u.leaf_index u.element).getD i 0 = _
    rw [List.getD_eq_getElem?_getD,
      List.getElem?_set_ne (h u (List.mem_cons_self u us)),
      ← List.getD_eq_getElem?_getD]

/-- the protocol invariant: latest is mined plus the pending diff, whose
entries sit at the contiguous indices from mined.next_leaf on. -/
theorem reach_inv {m l : TreeVersionData} (h : Reach m l) :
    l.next_leaf = m.next_leaf + l.diff.length ∧
    l.diff.map TreeUpdate.leaf_index = List.range' m.next_leaf l.diff.length ∧
    l.tree = applyLeafSets m.tree l.diff := by
  induction h with
  | init d => exact ⟨rfl, rfl, rfl⟩
  | @insert m l e hr ih =>
    obtain ⟨h1, h2, h3⟩ := ih
    refine ⟨?_, ?_, ?_⟩
    · show l.next_leaf + 1
        = m.next_leaf + (l.diff ++ [TreeUpdate.mk l.next_leaf e]).length
      rw [List.length_append]
      simp only [List.length_cons, List.length_nil]
      omega
    · show (l.diff ++ [TreeUpdate.mk l.next_leaf e]).map TreeUpdate.leaf_index
        = List.range' m.next_leaf (l.diff ++ [TreeUpdate.mk l.next_leaf e]).length
      rw [List.map_append, h2, List.length_append]
      simp only [List.map_cons, List.map_nil, List.length_cons, List.length_nil]
      rw [List.range'_concat]
      simp [h1]
    · show (l.update l.next_leaf e).tree
        = applyLeafSets m.tree (l.diff ++ [TreeUpdate.mk l.next_leaf e])
      rw [applyLeafSets_concat, ← h3, update_tree]
  | @applyStep m l hr ih =>
    obtain ⟨h1, h2, h3⟩ := ih
    by_cases hn : m.has_next = true
    · cases hd : l.diff with
      | nil =>
        rw [hd] at h1 h2 h3
        simp only [TreeVersionData.apply_next_update, hn, if_true, hd]
        exact ⟨h1, h2, h3⟩
      | cons u rest =>
        rw [hd] at h1 h2 h3
        rw [List.length_cons] at h1 h2
        rw [List.map_cons, List.range'_succ] at h2
        obtain ⟨hu, hrest⟩ := List.cons_eq_cons.mp h2
        simp only [TreeVersionData.apply_next_update, hn, if_true, hd]
        refine ⟨?_, ?_, ?_⟩
        · show l.next_leaf = u.leaf_index + 1 + rest.length
          omega
        · show rest.map TreeUpdate.leaf_index = List.range' (u.leaf_index + 1) rest.length
          rw [hu]
          exact hrest
        · show l.tree = applyLeafSets (m.update u.leaf_index u.element).tree rest
          rw [h3, applyLeafSets_cons, update_tree]
    · simp only [TreeVersionData.apply_next_update, hn, if_false]
      exact ⟨h1, h2, h3⟩

/-- C2: in every protocol-reachable (mined, latest) pair, mined.next_leaf is
at most latest.next_leaf and the two views agree on every leaf below
mined.next_leaf. -/
theorem C2_mined_is_prefix_of_latest {m l : TreeVersionData} (h : Reach m l) :
    m.next_leaf ≤ l.next_leaf ∧
    ∀ i, i < m.next_leaf → m.tree.get i = l.tree.get i := by
  obtain ⟨h1, h2, h3⟩ := reach_inv h
  refine ⟨by omega, ?_⟩
  intro i hi
  show m.tree.leaves.getD i 0 = l.tree.leaves.getD i 0
  rw [h3, applyLeafSets_getD_ne]
  intro u hu
  have hm : u.leaf_index ∈ l.diff.map TreeUpdate.leaf_index :=
    List.mem_map_of_mem _ hu
  rw [h2] at hm
  have := (List.mem_range'_1.mp hm).1
  omega

/-- C2 witness: the invariant instantiated at a concrete reachable state. -/
theorem C2_witness :
    c2wPair.1.next_leaf ≤ c2wPair.2.next_leaf ∧
    ∀ i, i < c2wPair.1.next_leaf → c2wPair.1.tree.get i = c2wPair.2.tree.get i :=
  C2_mined_is_prefix_of_latest
    (Reach.applyStep (Reach.insert 5 (Reach.init (TreeVersionData.empty 2 0))))

/-- C3 counterexample: after branching and one child update, apply_next_update
changes the parent's own diff log, because the source routes the consumed
update through the diff-recording update path rather than the diff-free one. -/
theorem C3_counterexample :
    ¬ (((TreeVersionData.empty 1 0).next_version.1.apply_next_update
          ((TreeVersionData.empty 1 0).next_version.2.update 0 7)).1.diff
        = (TreeVersionData.empty 1 0).next_version.1.diff) := by decide

/-- C3 as amended: apply_next_update consumes the first pending child diff
entry, applies it to the parent's own tree, advances the parent's next_leaf
past it, and also appends it to the parent's own diff log; the child loses
exactly its first diff entry and its tree and next_leaf are unchanged. -/
theorem C3_apply_next_update_effect (p c : TreeVersionData) (u : TreeUpdate)
    (rest : List TreeUpdate) (hp : p.has_next = true) (hc : c.diff = u :: rest) :
    (p.apply_next_update c).1.tree = p.tree.set u.leaf_index u.element ∧
    (p.apply_next_update c).1.next_leaf = u.leaf_index + 1 ∧
    (p.apply_next_update c).1.diff = p.diff ++ [u] ∧
    (p.apply_next_update c).2.tree = c.tree ∧
    (p.apply_next_update c).2.next_leaf = c.next_leaf ∧
    (p.apply_next_update c).2.diff = rest := by
  simp only [TreeVersionData.apply_next_update, hp, if_true, hc]
  simp [TreeVersionData.update, TreeVersionData.update_without_diff]

/-- C3 witness: the amended effect at a concrete parent and child. -/
theorem C3_witness :
    (c3wParent.apply_next_update c3wChild).1.tree = c3wParent.tree.set 0 7 ∧
    (c3wParent.apply_next_update c3wChild).1.next_leaf = 0 + 1 ∧
    (c3wParent.apply_next_update c3wChild).1.diff
      = c3wParent.diff ++ [TreeUpdate.mk 0 7] ∧
    (c3wParent.apply_next_update c3wChild).2.tree = c3wChild.tree ∧
    (c3wParent.apply_next_update c3wChild).2.next_leaf = c3wChild.next_leaf ∧
    (c3wParent.apply_next_update c3wChild).2.diff = [] :=
  C3_apply_next_update_effect c3wParent c3wChild (TreeUpdate.mk 0 7) []
    (by decide) (by decide)

theorem builder_fold_data (us : List TreeUpdate) (b : CanonicalTreeBuilder) :
    (us.foldl CanonicalTreeBuilder.append b).data
      = applyUpdatesWithoutDiff b.data us := by
  induction us generalizing b with
  | nil => rfl
  | cons u us ih => rw [List.foldl_cons, ih]; rfl

theorem applyUpdatesWithoutDiff_cons (d : TreeVersionData) (u : TreeUpdate)
    (us : List TreeUpdate) :
    applyUpdatesWithoutDiff d (u :: us)
      = applyUpdatesWithoutDiff (d.update_without_diff u.leaf_index u.element) us := rfl

theorem applyUpdatesWithoutDiff_diff (us : List TreeUpdate) (d : TreeVersionData) :
    (applyUpdatesWithoutDiff d us).diff = d.diff := by
  induction us generalizing d with
  | nil => rfl
  | cons u us ih => rw [applyUpdatesWithoutDiff_cons, ih]; rfl

theorem applyUpdatesWithoutDiff_has_next (us : List TreeUpdate) (d : TreeVersionData) :
    (applyUpdatesWithoutDiff d us).has_next = d.has_next := by
  induction us generalizing d with
  | nil => rfl
  | cons u us ih => rw [applyUpdatesWithoutDiff_cons, ih]; rfl

theorem applyUpdatesWithoutDiff_tree (us : List TreeUpdate) (d : TreeVersionData) :
    (applyUpdatesWithoutDiff d us).tree = applyLeafSets d.tree us := by
  induction us generalizing d with
  | nil => rfl
  | cons u us ih => rw [applyUpdatesWithoutDiff_cons, ih, applyLeafSets_cons]; rfl

/-- C9: a sealed canonical build from a fresh tree has an empty diff log and
no child link, and its tree and next_leaf are exactly those produced by the
diff-free leaf-set path over the appended updates starting from a fresh
version. -/
theorem C9_canonical_builder_seal (tree_depth : Nat) (initial_leaf : Hash)
    (us : List TreeUpdate) :
    (us.foldl CanonicalTreeBuilder.append
        (CanonicalTreeBuilder.new tree_depth initial_leaf)).seal.diff = [] ∧
    (us.foldl CanonicalTreeBuilder.append
        (CanonicalTreeBuilder.new tree_depth initial_leaf)).seal.has_next = false ∧
    (us.foldl CanonicalTreeBuilder.append
        (CanonicalTreeBuilder.new tree_depth initial_leaf)).seal.tree
      = applyLeafSets (PoseidonTree.new tree_depth initial_leaf) us ∧
    (us.foldl CanonicalTreeBuilder.append
        (CanonicalTreeBuilder.new tree_depth initial_leaf)).seal.next_leaf
      = (applyUpdatesWithoutDiff (TreeVersionData.empty tree_depth initial_leaf)
          us).next_leaf := by
  have hb : (us.foldl CanonicalTreeBuilder.append
      (CanonicalTreeBuilder.new tree_depth initial_leaf)).seal
      = applyUpdatesWithoutDiff (TreeVersionData.empty tree_depth initial_leaf) us :=
    builder_fold_data us (CanonicalTreeBuilder.new tree_depth initial_leaf)
  rw [hb, applyUpdatesWithoutDiff_diff, applyUpdatesWithoutDiff_has_next,
    applyUpdatesWithoutDiff_tree]
  exact ⟨rfl, rfl, rfl, rfl⟩

/-- C10 counterexample: with next_leaf = 1, an update at index 0, which is
strictly below next_leaf, leaves next_leaf unchanged rather than decreasing
it. -/
theorem C10_counterexample :
    0 < ((TreeVersionData.empty 2 0).update 0 3).next_leaf ∧
    (((TreeVersionData.empty 2 0).update 0 3).update 0 4).next_leaf
      = ((TreeVersionData.empty 2 0).update 0 3).next_leaf := by decide

/-- C10 as amended: update and update_without_diff set next_leaf to
leaf_index + 1 unconditionally; an update strictly below next_leaf never
increases next_leaf and decreases it exactly when leaf_index + 1 is strictly
below it, so next_leaf is one past the most recently written index rather
than the count of assigned leaves. -/
theorem C10_next_leaf_unconditional (d : TreeVersionData) (i : Nat) (e : Hash)
    (_hcap : i < 2 ^ d.tree.depth) :
    (d.update i e).next_leaf = i + 1 ∧
    (d.update_without_diff i e).next_leaf = i + 1 ∧
    (i < d.next_leaf → (d.update i e).next_leaf ≤ d.next_leaf) ∧
    (i + 1 < d.next_leaf → (d.update i e).next_leaf < d.next_leaf) := by
  refine ⟨rfl, rfl, fun h => ?_, fun h => ?_⟩
  · show i + 1 ≤ d.next_leaf
    omega
  · show i + 1 < d.next_leaf
    omega

/-- C10 witness: the amended statement at a concrete state with next_leaf 1. -/
theorem C10_witness :
    (c10wD.update 0 4).next_leaf = 0 + 1 ∧
    (c10wD.update_without_diff 0 4).next_leaf = 0 + 1 ∧
    (0 < c10wD.next_leaf → (c10wD.update 0 4).next_leaf ≤ c10wD.next_leaf) ∧
    (0 + 1 < c10wD.next_leaf → (c10wD.update 0 4).next_leaf < c10wD.next_leaf) :=
  C10_next_leaf_unconditional c10wD 0 4 (by decide)

theorem append_many_fresh_eq_filter (d : TreeVersionData) (us : List TreeUpdate) :
    d.append_many_fresh us
      = applyUpdates d (us.filter fun u => d.next_leaf ≤ u.leaf_index) := rfl

theorem applyUpdates_next_leaf (us : List TreeUpdate) (d : TreeVersionData) :
    (applyUpdates d us).next_leaf
      = (us.getLast?.map fun u => u.leaf_index + 1).getD d.next_leaf := by
  induction us generalizing d with
  | nil => rfl
  | cons u us ih =>
    cases us with
    | nil => rfl
    | cons v vs =>
      rw [applyUpdates_cons, ih, List.getLast?_cons_cons,
        List.getLast?_eq_getLast (v :: vs) (by simp)]
      simp

theorem applyUpdates_tree_eq (us : List TreeUpdate) (d : TreeVersionData) :
    (applyUpdates d us).tree = applyLeafSets d.tree us := by
  induction us generalizing d with
  | nil => rfl
  | cons u us ih => rw [applyUpdates_cons, ih, applyLeafSets_cons, update_tree]

theorem applyLeafSets_length (us : List TreeUpdate) (t : PoseidonTree) :
    (applyLeafSets t us).leaves.length = t.leaves.length := by
  induction us generalizing t with
  | nil => rfl
  | cons u us ih =>
    rw [applyLeafSets_cons, ih]
    show (t.leaves.set u.leaf_index u.element).length = t.leaves.length
    exact List.length_set t.leaves u.leaf_index u.element

theorem append_many_fresh_of_all_below (d : TreeVersionData) (us : List TreeUpdate)
    (h : ∀ u ∈ us, u.leaf_index < d.next_leaf) :
    d.append_many_fresh us = d := by
  rw [append_many_fresh_eq_filter]
  have hf : (us.filter fun u => d.next_leaf ≤ u.leaf_index) = [] := by
    rw [List.filter_eq_nil_iff]
    intro u hu
    simp only [decide_eq_true_eq, not_le]
    exact h u hu
  rw [hf, applyUpdates_nil]

theorem pairwise_le_getLast (l : List TreeUpdate)
    (hs : l.Pairwise fun a b => a.leaf_index ≤ b.leaf_index) (hl : l ≠ []) :
    ∀ u ∈ l, u.leaf_index ≤ (l.getLast hl).leaf_index := by
  induction l with
  | nil => intro u hu; cases hu
  | cons a l ih =>
    rw [List.pairwise_cons] at hs
    intro u hu
    cases l with
    | nil =>
      rcases List.mem_cons.mp hu with rfl | h0
      · exact Nat.le_refl _
      · cases h0
    | cons b m =>
      rw [List.getLast_cons (by simp : b :: m ≠ [])]
      rcases List.mem_cons.mp hu with rfl | h0
      · exact Nat.le_trans (hs.1 _ (List.getLast_mem _)) (Nat.le_refl _)
      · exact ih hs.2 (by simp) u h0

theorem append_many_fresh_next_leaf_bound (d : TreeVersionData) (us : List TreeUpdate)
    (hsorted : us.Pairwise fun a b => a.leaf_index ≤ b.leaf_index) :
    ∀ u ∈ us, u.leaf_index < (d.append_many_fresh us).next_leaf := by
  intro u hu
  rw [append_many_fresh_eq_filter, applyUpdates_next_leaf]
  by_cases hfe : (us.filter fun v => d.next_leaf ≤ v.leaf_index) = []
  · rw [hfe]
    have := List.filter_eq_nil_iff.mp hfe u hu
    simp only [decide_eq_true_eq, not_le] at this
    simpa using this
  · rw [List.getLast?_eq_getLast _ hfe]
    have hpair : (us.filter fun v => d.next_leaf ≤ v.leaf_index).Pairwise
        (fun a b => a.leaf_index ≤ b.leaf_index) :=
      List.Pairwise.sublist (List.filter_sublist us) hsorted
    have hlastmem := List.getLast_mem hfe
    have hlastp := (List.mem_filter.mp hlastmem).2
    simp only [decide_eq_true_eq] at hlastp
    by_cases hp : d.next_leaf ≤ u.leaf_index
    · have humem : u ∈ us.filter fun v => d.next_leaf ≤ v.leaf_index :=
        List.mem_filter.mpr ⟨hu, by simp [hp]⟩
      have := pairwise_le_getLast _ hpair hfe u humem
      simp only [Option.map_some', Option.getD_some]
      omega
    · simp only [Option.map_some', Option.getD_some]
      omega

/-- C4 counterexample: a batch whose leaf indices are not in increasing order;
a second identical append_many_fresh changes next_leaf (4 becomes 6), so the
operation is not idempotent for every batch. -/
theorem C4_counterexample :
    ¬ ((((TreeVersionData.empty 3 0).append_many_fresh
            [TreeUpdate.mk 5 1, TreeUpdate.mk 3 2]).append_many_fresh
            [TreeUpdate.mk 5 1, TreeUpdate.mk 3 2]).next_leaf
        = ((TreeVersionData.empty 3 0).append_many_fresh
            [TreeUpdate.mk 5 1, TreeUpdate.mk 3 2]).next_leaf) := by decide

theorem nodup_indices_inj (us : List TreeUpdate)
    (hnd : (us.map TreeUpdate.leaf_index).Nodup) :
    ∀ u ∈ us, ∀ v ∈ us, u.leaf_index = v.leaf_index → u = v := by
  induction us with
  | nil => intro u hu; cases hu
  | cons a l ih =>
    rw [List.map_cons, List.nodup_cons] at hnd
    intro u hu v hv he
    rcases List.mem_cons.mp hu with rfl | hu2
    · rcases List.mem_cons.mp hv with rfl | hv2
      · rfl
      · exact absurd (he ▸ List.mem_map_of_mem TreeUpdate.leaf_index hv2) hnd.1
    · rcases List.mem_cons.mp hv with rfl | hv2
      · exact absurd (he ▸ List.mem_map_of_mem TreeUpdate.leaf_index hu2) hnd.1
      · exact ih hnd.2 u hu2 v hv2 he

theorem find?_index_eq_of_perm (us vs : List TreeUpdate) (h : us.Perm vs)
    (hnd : (vs.map TreeUpdate.leaf_index).Nodup) (j : Nat) :
    us.find? (fun u => u.leaf_index == j) = vs.find? (fun u => u.leaf_index == j) := by
  cases hv : vs.find? (fun u => u.leaf_index == j) with
  | none =>
    rw [List.find?_eq_none] at hv ⊢
    exact fun x hx => hv x (h.mem_iff.mp hx)
  | some v =>
    have hvmem := List.mem_of_find?_eq_some hv
    have hvp := List.find?_some hv
    cases hu : us.find? (fun u => u.leaf_index == j) with
    | none =>
      rw [List.find?_eq_none] at hu
      exact absurd hvp (hu v (h.mem_iff.mpr hvmem))
    | some u =>
      have humem := h.mem_iff.mp (List.mem_of_find?_eq_some hu)
      have hup := List.find?_some hu
      have : u = v := by
        refine nodup_indices_inj vs hnd u humem v hvmem ?_
        simp only [beq_iff_eq] at hup hvp
        omega
      rw [this]

theorem applyLeafSets_getD_nodup (us : List TreeUpdate) (t : PoseidonTree) (j : Nat)
    (hj : j < t.leaves.length) (hnd : (us.map TreeUpdate.leaf_index).Nodup) :
    (applyLeafSets t us).leaves.getD j 0
      = ((us.find? fun u => u.leaf_index == j).map TreeUpdate.element).getD
          (t.leaves.getD j 0) := by
  induction us generalizing t with
  | nil => rfl
  | cons u us ih =>
    rw [List.map_cons, List.nodup_cons] at hnd
    rw [applyLeafSets_cons]
    by_cases he : u.leaf_index = j
    · rw [List.find?_cons_of_pos _ (by simp [he])]
      have hnotin : ∀ v ∈ us, v.leaf_index ≠ j := by
        intro v hv hvj
        apply hnd.1
        have hm : v.leaf_index ∈ us.map TreeUpdate.leaf_index :=
          List.mem_map_of_mem TreeUpdate.leaf_index hv
        rw [hvj, ← he] at hm
        exact hm
      rw [applyLeafSets_getD_ne us _ j hnotin]
      show (t.leaves.set u.leaf_index u.element).getD j 0 = _
      rw [he, List.getD_eq_getElem?_getD, List.getElem?_set_self (by omega)]
      simp
    · rw [List.find?_cons_of_neg _ (by simp [he])]
      rw [ih (t.set u.leaf_index u.element)
        (by rw [show (t.set u.leaf_index u.element).leaves
            = t.leaves.set u.leaf_index u.element from rfl, List.length_set]; omega)
        hnd.2]
      show _ = ((us.find? fun v => v.leaf_index == j).map TreeUpdate.element).getD
        (t.leaves.getD j 0)
      rw [show (t.set u.leaf_index u.element).leaves
        = t.leaves.set u.leaf_index u.element from rfl]
      rw [List.getD_eq_getElem?_getD t.leaves, List.getD_eq_getElem?_getD,
        List.getElem?_set_ne he]

/-- C4 as amended: for every batch ordered by non-decreasing leaf_index
(repeated leaf indices allowed), a second identical append_many_fresh leaves
the version state unchanged; and for every batch with pairwise-distinct leaf
indices, in any order, permuting the batch does not change any resulting leaf
value (although it can change next_leaf and the diff, as the counterexample
shows). -/
theorem C4_append_many_fresh_amended (d : TreeVersionData) (us us2 : List TreeUpdate) :
    ((us.Pairwise fun a b => a.leaf_index ≤ b.leaf_index) →
      (d.append_many_fresh us).append_many_fresh us = d.append_many_fresh us) ∧
    (us2.Perm us → (us.map TreeUpdate.leaf_index).Nodup →
      ∀ j, (d.append_many_fresh us2).tree.get j = (d.append_many_fresh us).tree.get j) := by
  constructor
  · intro hsorted
    exact append_many_fresh_of_all_below _ us
      (append_many_fresh_next_leaf_bound d us hsorted)
  · intro hperm hnd j
    show (d.append_many_fresh us2).tree.leaves.getD j 0
      = (d.append_many_fresh us).tree.leaves.getD j 0
    rw [append_many_fresh_eq_filter, append_many_fresh_eq_filter,
      applyUpdates_tree_eq, applyUpdates_tree_eq]
    have hfperm : (us2.filter fun u => d.next_leaf ≤ u.leaf_index).Perm
        (us.filter fun u => d.next_leaf ≤ u.leaf_index) := hperm.filter _
    have hndf : ((us.filter fun u => d.next_leaf ≤ u.leaf_index).map
        TreeUpdate.leaf_index).Nodup :=
      List.Nodup.sublist (List.Sublist.map _ (List.filter_sublist us)) hnd
    have hndf2 : ((us2.filter fun u => d.next_leaf ≤ u.leaf_index).map
        TreeUpdate.leaf_index).Nodup :=
      ((hfperm.map TreeUpdate.leaf_index).nodup_iff).mpr hndf
    by_cases hj : j < d.tree.leaves.length
    · rw [applyLeafSets_getD_nodup _ _ _ hj hndf2,
        applyLeafSets_getD_nodup _ _ _ hj hndf,
        find?_index_eq_of_perm _ _ hfperm hndf j]
    · have h1 : (applyLeafSets d.tree
          (us2.filter fun u => d.next_leaf ≤ u.leaf_index)).leaves.length ≤ j := by
        rw [applyLeafSets_length]
        omega
      have h2 : (applyLeafSets d.tree
          (us.filter fun u => d.next_leaf ≤ u.leaf_index)).leaves.length ≤ j := by
        rw [applyLeafSets_length]
        omega
      rw [List.getD_eq_getElem?_getD, List.getD_eq_getElem?_getD,
        List.getElem?_eq_none h1, List.getElem?_eq_none h2]

/-- C4 witness: the amended statement instantiated at a concrete sorted batch
with a repeated leaf index (first conjunct) and at a concrete duplicate-free
batch and a permutation of it (second conjunct). -/
theorem C4_witness :
    ((c4wD.append_many_fresh
          [TreeUpdate.mk 0 1, TreeUpdate.mk 0 2, TreeUpdate.mk 2 3]).append_many_fresh
        [TreeUpdate.mk 0 1, TreeUpdate.mk 0 2, TreeUpdate.mk 2 3]
      = c4wD.append_many_fresh
          [TreeUpdate.mk 0 1, TreeUpdate.mk 0 2, TreeUpdate.mk 2 3]) ∧
    ∀ j, (c4wD.append_many_fresh [TreeUpdate.mk 2 3, TreeUpdate.mk 0 1]).tree.get j
      = (c4wD.append_many_fresh [TreeUpdate.mk 0 1, TreeUpdate.mk 2 3]).tree.get j :=
  ⟨(C4_append_many_fresh_amended c4wD
      [TreeUpdate.mk 0 1, TreeUpdate.mk 0 2, TreeUpdate.mk 2 3]
      [TreeUpdate.mk 2 3, TreeUpdate.mk 0 1]).1 (by decide),
   (C4_append_many_fresh_amended c4wD
      [TreeUpdate.mk 0 1, TreeUpdate.mk 2 3]
      [TreeUpdate.mk 2 3, TreeUpdate.mk 0 1]).2 (by decide) (by decide)⟩

/-- C8: parsing succeeds exactly on the literals "pending" and "mined",
yielding Pending and Mined, and every other string fails with UnknownStatus. -/
theorem C8_status_from_str (s : String) (h1 : s ≠ "pending") (h2 : s ≠ "mined") :
    Status.from_str "pending" = Except.ok Status.Pending ∧
    Status.from_str "mined" = Except.ok Status.Mined ∧
    Status.from_str s = Except.error UnknownStatus.mk := by
  refine ⟨rfl, rfl, ?_⟩
  rw [Status.from_str, if_neg h1, if_neg h2]

/-- C8 witness: the parse outcomes at the unrecognized string "confirmed". -/
theorem C8_witness :
    Status.from_str "pending" = Except.ok Status.Pending ∧
    Status.from_str "mined" = Except.ok Status.Mined ∧
    Status.from_str "confirmed" = Except.error UnknownStatus.mk :=
  C8_status_from_str "confirmed" (by decide) (by decide)

/-- C7: if creating or serializing the persisted commitments file fails,
insert_identity returns an error and never issues the insert-identity
transaction to the ledger contract. -/
theorem C7_persistence_failure_aborts (st : AppState) (commitment : Hash)
    (block_number : Except Unit Nat) (create_file write_json tx_receipt : Except Unit Unit)
    (h : create_file = Except.error () ∨ write_json = Except.error ()) :
    (insert_identity st commitment block_number create_file write_json
        tx_receipt).2.1.isOk = false ∧
    LedgerAction.sendTransaction ∉
      (insert_identity st commitment block_number create_file write_json
        tx_receipt).2.2 := by
  cases block_number with
  | error e => simp [insert_identity, Except.isOk, Except.toBool]
  | ok n =>
    rcases h with h | h
    · rw [h]
      simp [insert_identity, Except.isOk, Except.toBool]
    · cases create_file with
      | error e => simp [insert_identity, Except.isOk, Except.toBool]
      | ok u =>
        rw [h]
        simp [insert_identity, Except.isOk, Except.toBool]

/-- C7 witness: a failing file creation at a concrete state; the call errors
and no transaction is sent. -/
theorem C7_witness :
    (insert_identity (AppState.mk [0, 0] 0) 5 (Except.ok 3) (Except.error ())
        (Except.ok ()) (Except.ok ())).2.1.isOk = false ∧
    LedgerAction.sendTransaction ∉
      (insert_identity (AppState.mk [0, 0] 0) 5 (Except.ok 3) (Except.error ())
        (Except.ok ()) (Except.ok ())).2.2 :=
  C7_persistence_failure_aborts (AppState.mk [0, 0] 0) 5 (Except.ok 3)
    (Except.error ()) (Except.ok ()) (Except.ok ()) (Or.inl rfl)
